import Mathlib

/-!
# Fluid simulation: the SPH solver core and the thread pool

A shallow embedding of `src/threadpool.cpp` and of the solver of `src/main.cpp`
(BuildGrid, GetNearNeighborsMTBF, SpawnParticles, ComputeDensityPressureMTBF,
ComputeForcesMTBF, IntegrateMTBF, UpdateMTBF), and the properties proved about them.

Conventions of the embedding.

* Floats are the elements of an arbitrary linearly ordered field `K` with a floor function
  (exact arithmetic; the rationals and the reals are instances). Division is the total
  division of the field. `pow(x, n.f)` with a whole exponent is `x ^ n`.
* `int` is `Int` without overflow; particle indices and loop counters that start at 0 are
  `Nat`. `int(x)` on a float is truncation toward zero.
* `glm::pi`, the square root behind `glm::length`, `glm::distance` and `glm::normalize`, and
  the stream of values `RandomValue()` returns are parameters: every result holds for all of
  them.
* `std::vector` is `List`; element access is total (out of range reads give an empty cell or
  a zero particle, out of range writes do nothing) and the accesses the solver makes are
  shown to be in range.
* The namespace `Rounded` repeats the grid and the neighbor search with a rounding function
  applied to the result of every float operation; with the identity it is the exact
  embedding, with `binary32` it is the float arithmetic of the program.
* `tbb::parallel_for(0, n, body)` runs `body 0`, ..., `body (n - 1)` in this order on the
  state. Loops whose termination depends on the data (`SpawnParticles`) take fuel and return
  `none` when it runs out.
-/

set_option linter.unusedSectionVars false
set_option linter.unnecessarySeqFocus false

/-! ## threadpool.cpp -/

namespace thread_pool

/-- The closure batch_job of parallel_for: it captures batch_start and batch_end (and func). -/
structure BatchJob where
  batch_start : Int
  batch_end : Int
deriving DecidableEq

/-- The body of a batch job, for (int j = batch_start; j < batch_end; ++j) func(j), on a
state that func updates. -/
def batch_loop {σ : Type} (func : Int → σ → σ) (j batch_end : Int) (s : σ) : σ :=
  if j < batch_end then batch_loop func (j + 1) batch_end (func j s) else s
termination_by (batch_end - j).toNat
decreasing_by omega

/-- Running a batch job to completion. -/
def run_job {σ : Type} (func : Int → σ → σ) (job : BatchJob) (s : σ) : σ :=
  batch_loop func job.batch_start job.batch_end s

/-- The loop of parallel_for, for (int i = start; i < end; i += batch_size): the jobs passed to
add_job, in order. The batch size is at least 1, which is what makes the loop end. -/
def submit_loop (i end_ batch_size : Int) (hb : 1 ≤ batch_size) : List BatchJob :=
  if i < end_ then
    BatchJob.mk i (min (i + batch_size) end_) :: submit_loop (i + batch_size) end_ batch_size hb
  else []
termination_by (end_ - i).toNat
decreasing_by omega

/-- The jobs thread_pool::parallel_for submits for the range [start, end_) when
hardware_concurrency() is num_threads; none stands for the division by zero when num_threads
is 0. The wait for the workers at the end is not part of the embedding. -/
def parallel_for (start end_ num_threads : Int) : Option (List BatchJob) :=
  let length := end_ - start
  if length ≤ 0 then some []
  else if num_threads = 0 then none
  else
    let batch_size := max 1 (Int.tdiv length num_threads)
    some (submit_loop start end_ batch_size (le_max_left _ _))

/-- A func that appends its index to a shared log. -/
def record (j : Int) (log : List Int) : List Int := log ++ [j]

/-- The indices a batch job invokes func on, in order. -/
def invocations (job : BatchJob) : List Int := run_job record job []

end thread_pool


/-! ## glm: the vector types and functions main.cpp uses -/

namespace glm

/-- Two-component vector, glm::vec2, over an ordered field K standing for exact arithmetic. -/
structure vec2 (K : Type) where
  x : K
  y : K
deriving DecidableEq

/-- Two-component integer vector, glm::ivec2. -/
structure ivec2 where
  x : Int
  y : Int
deriving DecidableEq

variable {K : Type} [LinearOrderedField K]

instance : Add (vec2 K) := ⟨fun a b => ⟨a.x + b.x, a.y + b.y⟩⟩
instance : Sub (vec2 K) := ⟨fun a b => ⟨a.x - b.x, a.y - b.y⟩⟩
instance : Neg (vec2 K) := ⟨fun a => ⟨-a.x, -a.y⟩⟩
instance : HMul (vec2 K) K (vec2 K) := ⟨fun a s => ⟨a.x * s, a.y * s⟩⟩
instance : HMul K (vec2 K) (vec2 K) := ⟨fun s a => ⟨s * a.x, s * a.y⟩⟩
instance : HDiv (vec2 K) K (vec2 K) := ⟨fun a s => ⟨a.x / s, a.y / s⟩⟩

/-- The glm::dot product of two vectors. -/
def dot (a b : vec2 K) : K := a.x * b.x + a.y * b.y

/-- The glm::clamp on int: min(max(x, minVal), maxVal). -/
def clamp (x minVal maxVal : Int) : Int := min (max x minVal) maxVal

/-- The glm::length, sqrt(dot(v, v)); the square root is a parameter. -/
def length (sqrt : K → K) (v : vec2 K) : K := sqrt (dot v v)

/-- The glm::distance, length(p1 - p0). -/
def distance (sqrt : K → K) (p0 p1 : vec2 K) : K := length sqrt (p1 - p0)

/-- The glm::normalize, v * inversesqrt(dot(v, v)). -/
def normalize (sqrt : K → K) (v : vec2 K) : vec2 K := v * (1 / sqrt (dot v v))

end glm

/-! ## particle.h / particle.cpp -/

open glm

/-- The struct Particle of particle.h. -/
structure Particle (K : Type) where
  position : vec2 K
  velocity : vec2 K
  force : vec2 K
  density : K
  pressure : K
deriving DecidableEq

/-- CreateParticle of particle.cpp: position (x, y), everything else zero. -/
def CreateParticle {K : Type} [LinearOrderedField K] (x y : K) : Particle K :=
  { position := ⟨x, y⟩, velocity := ⟨0, 0⟩, force := ⟨0, 0⟩, density := 0, pressure := 0 }

/-! ## main.cpp -/

namespace FluidSim

/-- The file-scope constants of main.cpp that are written as literals there; pi stands
for glm::pi. The constants main.cpp derives from them are the definitions below. -/
structure Params (K : Type) where
  pi : K
  GRAVITY : K
  REST_DENSITY : K
  GAS_CONSTANT : K
  KERNEL_RADIUS : K
  PARTICLE_MASS : K
  VISCOSITY : K
  INTIGRATION_TIMESTEP : K
  BOUND_DAMPING : K
  MAX_NEIGHBORS : Int
  MAX_PARTICLES : Int
  WINDOW_WIDTH : Int
  WINDOW_HEIGHT : Int

/-- The values main.cpp gives its constants (lines 44-73). -/
def programParams {K : Type} [LinearOrderedField K] (pi : K) : Params K :=
  { pi := pi
    GRAVITY := -10
    REST_DENSITY := 300
    GAS_CONSTANT := 2000
    KERNEL_RADIUS := 16
    PARTICLE_MASS := 5 / 2
    VISCOSITY := 200
    INTIGRATION_TIMESTEP := 7 / 10000
    BOUND_DAMPING := -(1 / 2)
    MAX_NEIGHBORS := 10
    MAX_PARTICLES := 4000
    WINDOW_WIDTH := 1400
    WINDOW_HEIGHT := 800 }

/-- The two signals main.cpp reads from the Input object: GetMousePosition() and
IsMouseButtonHeldDown(0). -/
structure Input (K : Type) where
  mouse_position : vec2 K
  mouse_pressing : Bool

/-- The mutable globals of main.cpp the solver touches; rng counts the calls of
RandomValue() made so far, the k-th call returning rnd k for a given stream rnd. -/
structure State (K : Type) where
  particles : List (Particle K)
  neighbor_buffer : List (List Nat)
  grid : List (List Nat)
  rng : Nat

variable {K : Type} [LinearOrderedField K] [FloorRing K]

/-- The conversion int(x) of a float: truncation toward zero. -/
def toInt (x : K) : Int := if 0 ≤ x then Int.floor x else Int.ceil x

def KERNEL_RADIUS_SQR (c : Params K) : K := c.KERNEL_RADIUS * c.KERNEL_RADIUS

def POLY6 (c : Params K) : K := 4 / (c.pi * c.KERNEL_RADIUS ^ 8)

def SPIKY_GRAD (c : Params K) : K := -10 / (c.pi * c.KERNEL_RADIUS ^ 5)

def VISC_LAP (c : Params K) : K := 40 / (c.pi * c.KERNEL_RADIUS ^ 5)

def BOUNDARY_EPSILON (c : Params K) : K := c.KERNEL_RADIUS

def CELL_SIZE (c : Params K) : K := c.KERNEL_RADIUS

def GRID_WIDTH (c : Params K) : Int := toInt ((c.WINDOW_WIDTH : K) / CELL_SIZE c) + 1

def GRID_HEIGHT (c : Params K) : Int := toInt ((c.WINDOW_HEIGHT : K) / CELL_SIZE c) + 1

/-- Element access particles[i]; every access the solver makes is in range. -/
def particleAt (particles : List (Particle K)) (i : Nat) : Particle K :=
  particles.getD i (CreateParticle 0 0)

def GetCellIndex (c : Params K) (x y : Int) : Int := y * GRID_WIDTH c + x

def GetCell (c : Params K) (pos : vec2 K) : ivec2 :=
  ⟨toInt (pos.x / CELL_SIZE c), toInt (pos.y / CELL_SIZE c)⟩

/-- BuildGrid: clear, resize to GRID_WIDTH * GRID_HEIGHT empty cells, then push every
particle index onto the cell of its clamped cell coordinate. -/
def BuildGrid (c : Params K) (st : State K) : State K :=
  { st with
    grid := (List.range st.particles.length).foldl
      (fun grid i =>
        let cell := GetCell c (particleAt st.particles i).position
        let cell_x := clamp cell.x 0 (GRID_WIDTH c - 1)
        let cell_y := clamp cell.y 0 (GRID_HEIGHT c - 1)
        let k := (GetCellIndex c cell_x cell_y).toNat
        grid.set k (grid.getD k [] ++ [i]))
      (List.replicate (GRID_WIDTH c * GRID_HEIGHT c).toNat []) }

/-- The values offset_x and offset_y run through: -range, ..., range. -/
def offsets (range : Int) : List Int :=
  (List.range (range + 1 + range).toNat).map (fun k => -range + (k : Int))

/-- The loops of GetNearNeighborsMTBF: the indices pushed onto the cleared neighbor list. -/
def scanCells (c : Params K) (particles : List (Particle K)) (grid : List (List Nat))
    (position : vec2 K) : List Nat :=
  let particle_cell := GetCell c position
  let range := toInt ((Int.ceil (c.KERNEL_RADIUS / CELL_SIZE c) : Int) : K)
  (offsets range).foldl
    (fun neighbors offset_x =>
      (offsets range).foldl
        (fun neighbors offset_y =>
          let cell_x := clamp (particle_cell.x + offset_x) 0 (GRID_WIDTH c - 1)
          let cell_y := clamp (particle_cell.y + offset_y) 0 (GRID_HEIGHT c - 1)
          let cell_index := GetCellIndex c cell_x cell_y
          (grid.getD cell_index.toNat []).foldl
            (fun neighbors j =>
              let diff := (particleAt particles j).position - position
              if dot diff diff < KERNEL_RADIUS_SQR c then neighbors ++ [j] else neighbors)
            neighbors)
        neighbors)
    []

/-- GetNearNeighborsMTBF: neighbor_buffer[index] is cleared and refilled by the cell scan;
the result is the new buffer together with the returned reference neighbor_buffer[index]. -/
def GetNearNeighborsMTBF (c : Params K) (st : State K) (particle : Particle K) (index : Nat) :
    List (List Nat) × List Nat :=
  let buffer := st.neighbor_buffer.set index
    (scanCells c st.particles st.grid particle.position)
  (buffer, buffer.getD index [])

/-- The loop tbb::parallel_for(first, last, body), run in index order. -/
def tbb_parallel_for {σ : Type} (first last : Nat) (body : Nat → σ → σ) (s : σ) : σ :=
  (List.range' first (last - first)).foldl (fun s i => body i s) s

/-- The lambda of ComputeDensityPressureMTBF for index i. -/
def densityPressureBody (c : Params K) (i : Nat) (st : State K) : State K :=
  let particle_a := { particleAt st.particles i with density := 0 }
  let nb := GetNearNeighborsMTBF c st particle_a i
  let density := nb.2.foldl
    (fun density j =>
      let particle_b := particleAt st.particles j
      let rij := particle_b.position - particle_a.position
      let r2 := dot rij rij
      density + c.PARTICLE_MASS * POLY6 c * (KERNEL_RADIUS_SQR c - r2) ^ 3)
    particle_a.density
  let pressure := c.GAS_CONSTANT * (density - c.REST_DENSITY)
  { st with
    particles := st.particles.set i { particle_a with density := density, pressure := pressure }
    neighbor_buffer := nb.1 }

def ComputeDensityPressureMTBF (c : Params K) (st : State K) : State K :=
  let st1 := BuildGrid c st
  tbb_parallel_for 0 st1.particles.length (densityPressureBody c) st1

/-- The accumulators of the neighbor loop of ComputeForcesMTBF. -/
structure ForceAcc (K : Type) where
  pressure_force : vec2 K
  viscosity_force : vec2 K
  rng : Nat

/-- One iteration of the neighbor loop of ComputeForcesMTBF. -/
def forceStep (c : Params K) (sqrt : K → K) (rnd : Nat → K) (particles : List (Particle K))
    (i : Nat) (particle_a : Particle K) (acc : ForceAcc K) (j : Nat) : ForceAcc K :=
  if i = j then acc
  else
    let particle_b := particleAt particles j
    let diff := particle_b.position - particle_a.position
    let dist := length sqrt diff
    let jitter : vec2 K :=
      ⟨(rnd acc.rng - 1 / 2) * (1 / 10000), (rnd (acc.rng + 1) - 1 / 2) * (1 / 10000)⟩
    let diff1 := if dist < 1 / 1000000 then jitter else diff
    let dist1 := if dist < 1 / 1000000 then length sqrt jitter else dist
    let rng1 := if dist < 1 / 1000000 then acc.rng + 2 else acc.rng
    if dist1 < c.KERNEL_RADIUS then
      { pressure_force := acc.pressure_force +
          -normalize sqrt diff1 * c.PARTICLE_MASS * (particle_a.pressure + particle_b.pressure)
            / (2 * particle_b.density) * SPIKY_GRAD c * (c.KERNEL_RADIUS - dist1) ^ 3
        viscosity_force := acc.viscosity_force +
          (c.VISCOSITY * c.PARTICLE_MASS) * (particle_b.velocity - particle_a.velocity)
            / particle_b.density * VISC_LAP c * (c.KERNEL_RADIUS - dist1)
        rng := rng1 }
    else { acc with rng := rng1 }

/-- The lambda of ComputeForcesMTBF for index i. -/
def forcesBody (c : Params K) (sqrt : K → K) (rnd : Nat → K) (input : Input K) (i : Nat)
    (st : State K) : State K :=
  let particle_a := particleAt st.particles i
  let acc := (st.neighbor_buffer.getD i []).foldl
    (forceStep c sqrt rnd st.particles i particle_a) ⟨⟨0, 0⟩, ⟨0, 0⟩, st.rng⟩
  let mouse_pos : vec2 K :=
    ⟨input.mouse_position.x, (c.WINDOW_HEIGHT : K) - input.mouse_position.y⟩
  let mouse_dir := normalize sqrt (mouse_pos - particle_a.position)
  let mouse_dist := distance sqrt mouse_pos particle_a.position
  let mouse_force : vec2 K :=
    if input.mouse_pressing = true ∧ mouse_dist < 320 then
      mouse_dir * c.PARTICLE_MASS / particle_a.density * (20 : K)
    else ⟨0, 0⟩
  let gravity_force := (⟨0, c.GRAVITY⟩ : vec2 K) * c.PARTICLE_MASS / particle_a.density
  { st with
    particles := st.particles.set i
      { particle_a with
        force := acc.pressure_force + acc.viscosity_force + gravity_force + mouse_force }
    rng := acc.rng }

def ComputeForcesMTBF (c : Params K) (sqrt : K → K) (rnd : Nat → K) (input : Input K)
    (st : State K) : State K :=
  tbb_parallel_for 0 st.particles.length (forcesBody c sqrt rnd input) st

/-- The lambda of IntegrateMTBF, as a function of the particle it updates. -/
def integrateParticle (c : Params K) (particle : Particle K) : Particle K :=
  let velocity := particle.velocity + c.INTIGRATION_TIMESTEP * particle.force / particle.density
  let position := particle.position + c.INTIGRATION_TIMESTEP * velocity
  let px1 := if position.x - BOUNDARY_EPSILON c < 0 then BOUNDARY_EPSILON c else position.x
  let vx1 := if position.x - BOUNDARY_EPSILON c < 0 then velocity.x * c.BOUND_DAMPING
    else velocity.x
  let px2 := if px1 + BOUNDARY_EPSILON c > (c.WINDOW_WIDTH : K) then
    (c.WINDOW_WIDTH : K) - BOUNDARY_EPSILON c else px1
  let vx2 := if px1 + BOUNDARY_EPSILON c > (c.WINDOW_WIDTH : K) then vx1 * c.BOUND_DAMPING
    else vx1
  let py1 := if position.y - BOUNDARY_EPSILON c < 0 then BOUNDARY_EPSILON c else position.y
  let vy1 := if position.y - BOUNDARY_EPSILON c < 0 then velocity.y * c.BOUND_DAMPING
    else velocity.y
  let py2 := if py1 + BOUNDARY_EPSILON c > (c.WINDOW_HEIGHT : K) then
    (c.WINDOW_HEIGHT : K) - BOUNDARY_EPSILON c else py1
  let vy2 := if py1 + BOUNDARY_EPSILON c > (c.WINDOW_HEIGHT : K) then vy1 * c.BOUND_DAMPING
    else vy1
  { particle with position := ⟨px2, py2⟩, velocity := ⟨vx2, vy2⟩ }

/-- The lambda of IntegrateMTBF for index i. -/
def integrateBody (c : Params K) (i : Nat) (st : State K) : State K :=
  { st with particles := st.particles.set i (integrateParticle c (particleAt st.particles i)) }

def IntegrateMTBF (c : Params K) (st : State K) : State K :=
  tbb_parallel_for 0 st.particles.length (integrateBody c) st

def UpdateMTBF (c : Params K) (sqrt : K → K) (rnd : Nat → K) (input : Input K)
    (st : State K) : State K :=
  IntegrateMTBF c (ComputeForcesMTBF c sqrt rnd input (ComputeDensityPressureMTBF c st))

/-- The inner loop of SpawnParticles over x, for a row y; none when the fuel runs out
before the loop condition fails. -/
def spawnRow (c : Params K) (sqrt : K → K) (rnd : Nat → K) (center : vec2 K)
    (radius spacing y : K) : Nat → K → State K → Option (State K)
  | 0, _, _ => none
  | fuel + 1, x, st =>
    if x ≤ center.x + radius then
      let offset : vec2 K := ⟨rnd st.rng - 1 / 2, rnd (st.rng + 1) - 1 / 2⟩
      let position : vec2 K := ⟨x, y⟩
      let inside := decide (distance sqrt center position ≤ radius)
      let st1 : State K :=
        if inside = true ∧ (st.particles.length : Int) < c.MAX_PARTICLES % 2 ^ 64 then
          { st with
            particles := st.particles ++ [CreateParticle (x + offset.x) (y + offset.y)]
            rng := st.rng + 2 }
        else { st with rng := st.rng + 2 }
      spawnRow c sqrt rnd center radius spacing y fuel (x + spacing) st1
    else some st

/-- The outer loop of SpawnParticles over y. -/
def spawnRows (c : Params K) (sqrt : K → K) (rnd : Nat → K) (center : vec2 K)
    (radius spacing : K) (rowFuel : Nat) : Nat → K → State K → Option (State K)
  | 0, _, _ => none
  | fuel + 1, y, st =>
    if y ≤ center.y + radius then
      match spawnRow c sqrt rnd center radius spacing y rowFuel (center.x - radius) st with
      | none => none
      | some st1 => spawnRows c sqrt rnd center radius spacing rowFuel fuel (y + spacing) st1
    else some st

/-- SpawnParticles, with a bound fuel on the iterations of each of its two loops. -/
def SpawnParticles (c : Params K) (sqrt : K → K) (rnd : Nat → K) (fuel : Nat)
    (st : State K) : Option (State K) :=
  let radius : K := 160
  let center : vec2 K :=
    ⟨((Int.tdiv c.WINDOW_WIDTH 2 : Int) : K), ((Int.tdiv c.WINDOW_HEIGHT 2 : Int) : K)⟩
  let spacing := c.KERNEL_RADIUS
  spawnRows c sqrt rnd center radius spacing fuel fuel (center.y - radius) st

end FluidSim

/-! ## Auxiliary definitions used to state the results -/

namespace FluidSim

variable {K : Type} [LinearOrderedField K] [FloorRing K]

/-- The grid slot BuildGrid pushes a particle at position pos onto. -/
def slotOf (c : Params K) (pos : vec2 K) : Nat :=
  (GetCellIndex c (clamp (GetCell c pos).x 0 (GRID_WIDTH c - 1))
    (clamp (GetCell c pos).y 0 (GRID_HEIGHT c - 1))).toNat

/-- The squared distance dot(diff, diff) between particles i and j. -/
def r2 (particles : List (Particle K)) (i j : Nat) : K :=
  dot ((particleAt particles j).position - (particleAt particles i).position)
    ((particleAt particles j).position - (particleAt particles i).position)

/-- The summand of the density loop for the pair (i, j):
PARTICLE_MASS * POLY6 * (KERNEL_RADIUS_SQR - r2)^3. -/
def densityTerm (c : Params K) (particles : List (Particle K)) (i j : Nat) : K :=
  c.PARTICLE_MASS * POLY6 c * (KERNEL_RADIUS_SQR c - r2 particles i j) ^ 3

end FluidSim

namespace FluidSim

variable {K : Type} [LinearOrderedField K] [FloorRing K]

/-- The relation between the particle sequence before and after spawning: particles are only
appended, and whenever one was appended the result is within MAX_PARTICLES. -/
def Appended (c : Params K) (st st1 : State K) : Prop :=
  ∃ added, st1.particles = st.particles ++ added ∧
    (added = [] ∨ (st1.particles.length : Int) ≤ c.MAX_PARTICLES)

end FluidSim

/-! ## Concrete inputs -/

namespace FluidSim

/-- The constants of main.cpp over the rationals, with 355/113 standing in for pi. -/
def exampleParams : Params ℚ := programParams (355 / 113)

/-- Two particles at rest, 8 apart, in the middle of the window; the neighbor buffer as main
allocates it. -/
def pairState : State ℚ :=
  { particles := [CreateParticle 100 100, CreateParticle 108 100]
    neighbor_buffer := List.replicate 4000 []
    grid := []
    rng := 0 }

/-- The density the density pass computes for each particle of pairState. -/
def pairDensity : ℚ :=
  (5 / 2) * POLY6 exampleParams * (16 ^ 2 - 0) ^ 3 + (5 / 2) * POLY6 exampleParams * (16 ^ 2 - 64) ^ 3

/-- The constants of exampleParams with gravity switched off and the rest density set to the
density of the particles of pairState. -/
def restParams : Params ℚ :=
  { exampleParams with GRAVITY := 0, REST_DENSITY := pairDensity }

/-- One particle moving down fast, just above the lower margin. -/
def fallingState : State ℚ :=
  { particles := [{ position := ⟨700, 17⟩, velocity := ⟨0, -10000⟩, force := ⟨0, -10⟩,
                    density := 1, pressure := 0 }]
    neighbor_buffer := List.replicate 4000 []
    grid := []
    rng := 0 }

/-- One particle in the middle of the window. -/
def singleState : State ℚ :=
  { particles := [CreateParticle 700 400]
    neighbor_buffer := List.replicate 4000 []
    grid := []
    rng := 0 }

/-- One particle at (8, 8), in the corner cell (0, 0) of the grid. -/
def cornerState : State ℚ :=
  { particles := [CreateParticle 8 8]
    neighbor_buffer := List.replicate 4000 []
    grid := []
    rng := 0 }

/-- No interaction: the mouse button is not held. -/
def idleInput : Input ℚ := { mouse_position := ⟨0, 0⟩, mouse_pressing := false }

end FluidSim

/-! ## The neighbor search with rounded float operations -/

namespace FluidSim

namespace Rounded

variable {K : Type} [LinearOrderedField K] [FloorRing K]

/-- KERNEL_RADIUS_SQR, with the result of the float multiplication rounded by fl. -/
def KERNEL_RADIUS_SQR (fl : K → K) (c : Params K) : K :=
  fl (c.KERNEL_RADIUS * c.KERNEL_RADIUS)

/-- GRID_WIDTH, with the conversion of WINDOW_WIDTH to float and the float division rounded
by fl. -/
def GRID_WIDTH (fl : K → K) (c : Params K) : Int :=
  toInt (fl (fl (c.WINDOW_WIDTH : K) / CELL_SIZE c)) + 1

/-- GRID_HEIGHT, with the conversion of WINDOW_HEIGHT to float and the float division rounded
by fl. -/
def GRID_HEIGHT (fl : K → K) (c : Params K) : Int :=
  toInt (fl (fl (c.WINDOW_HEIGHT : K) / CELL_SIZE c)) + 1

def GetCellIndex (fl : K → K) (c : Params K) (x y : Int) : Int := y * GRID_WIDTH fl c + x

/-- GetCell, with the two float divisions rounded by fl. -/
def GetCell (fl : K → K) (c : Params K) (pos : vec2 K) : ivec2 :=
  ⟨toInt (fl (pos.x / CELL_SIZE c)), toInt (fl (pos.y / CELL_SIZE c))⟩

/-- BuildGrid over the rounded cell computation. -/
def BuildGrid (fl : K → K) (c : Params K) (st : State K) : State K :=
  { st with
    grid := (List.range st.particles.length).foldl
      (fun grid i =>
        let cell := GetCell fl c (particleAt st.particles i).position
        let cell_x := clamp cell.x 0 (GRID_WIDTH fl c - 1)
        let cell_y := clamp cell.y 0 (GRID_HEIGHT fl c - 1)
        let k := (GetCellIndex fl c cell_x cell_y).toNat
        grid.set k (grid.getD k [] ++ [i]))
      (List.replicate (GRID_WIDTH fl c * GRID_HEIGHT fl c).toNat []) }

/-- The loops of GetNearNeighborsMTBF with every float operation rounded by fl: the two
subtractions of diff, and in glm::dot the two products and their sum. -/
def scanCells (fl : K → K) (c : Params K) (particles : List (Particle K))
    (grid : List (List Nat)) (position : vec2 K) : List Nat :=
  let particle_cell := GetCell fl c position
  let range := toInt ((Int.ceil (fl (c.KERNEL_RADIUS / CELL_SIZE c)) : Int) : K)
  (offsets range).foldl
    (fun neighbors offset_x =>
      (offsets range).foldl
        (fun neighbors offset_y =>
          let cell_x := clamp (particle_cell.x + offset_x) 0 (GRID_WIDTH fl c - 1)
          let cell_y := clamp (particle_cell.y + offset_y) 0 (GRID_HEIGHT fl c - 1)
          let cell_index := GetCellIndex fl c cell_x cell_y
          (grid.getD cell_index.toNat []).foldl
            (fun neighbors j =>
              let diff : vec2 K :=
                ⟨fl ((particleAt particles j).position.x - position.x),
                  fl ((particleAt particles j).position.y - position.y)⟩
              if fl (fl (diff.x * diff.x) + fl (diff.y * diff.y)) < KERNEL_RADIUS_SQR fl c
              then neighbors ++ [j] else neighbors)
            neighbors)
        neighbors)
    []

/-- GetNearNeighborsMTBF over the rounded scan. -/
def GetNearNeighborsMTBF (fl : K → K) (c : Params K) (st : State K) (particle : Particle K)
    (index : Nat) : List (List Nat) × List Nat :=
  let buffer := st.neighbor_buffer.set index
    (scanCells fl c st.particles st.grid particle.position)
  (buffer, buffer.getD index [])

end Rounded

end FluidSim

open thread_pool glm FluidSim


/-! ## threadpool.cpp: parallel_for -/

theorem batch_loop_record (j e : Int) (s : List Int) (k : Int) :
    (batch_loop record j e s).count k = s.count k + (if j ≤ k ∧ k < e then 1 else 0) := by
  induction j, e, s using @batch_loop.induct (List Int) record with
  | case1 j e s h ih =>
    rw [batch_loop, if_pos h, ih]
    simp only [record, List.count_append, List.count_singleton, beq_iff_eq]
    by_cases h1 : j = k
    · subst h1
      rw [if_pos rfl, if_neg (by omega), if_pos ⟨le_refl _, h⟩]
    · rw [if_neg h1]
      by_cases h2 : j + 1 ≤ k ∧ k < e
      · rw [if_pos h2, if_pos ⟨by omega, h2.2⟩]
      · rw [if_neg h2, if_neg (by omega)]
  | case2 j e s h =>
    rw [batch_loop, if_neg h, if_neg (by omega)]; simp

theorem invocations_count (job : BatchJob) (k : Int) :
    (invocations job).count k = if job.batch_start ≤ k ∧ k < job.batch_end then 1 else 0 := by
  simp [invocations, run_job, batch_loop_record]

theorem submit_loop_count (i e b : Int) (hb : 1 ≤ b) (k : Int) :
    ((submit_loop i e b hb).map (fun job => (invocations job).count k)).sum
      = if i ≤ k ∧ k < e then 1 else 0 := by
  induction i, e, b, hb using submit_loop.induct with
  | case1 i e b hb h ih =>
    rw [submit_loop, if_pos h, List.map_cons, List.sum_cons, ih, invocations_count]
    simp only []
    by_cases h1 : i ≤ k ∧ k < min (i + b) e
    · rw [if_pos h1, if_neg (by omega), if_pos (by omega)]
    · rw [if_neg h1]
      by_cases h2 : i + b ≤ k ∧ k < e
      · rw [if_pos h2, if_pos (by omega)]
      · rw [if_neg h2, if_neg (by omega)]
  | case2 i e b hb h =>
    rw [submit_loop, if_neg h, if_neg (by omega)]; simp

/-- C1. For every start and end and every worker count numThreads ≥ 1, parallel_for submits
a list of batch jobs (each of which terminates) such that every index k is passed to func,
counted over all the jobs, exactly once when start ≤ k < end and never otherwise; no job is
submitted when end ≤ start. -/
theorem parallel_for_invokes_each_index_once (start end_ numThreads : Int)
    (hn : 1 ≤ numThreads) :
    ∃ jobs, parallel_for start end_ numThreads = some jobs ∧
      (∀ k : Int, (jobs.map (fun job => (invocations job).count k)).sum
          = if start ≤ k ∧ k < end_ then 1 else 0) ∧
      (end_ ≤ start → jobs = []) := by
  unfold parallel_for
  by_cases hl : end_ - start ≤ 0
  · refine ⟨[], by simp [hl], ?_, fun _ => rfl⟩
    intro k; rw [if_neg (by omega)]; simp
  · have hn0 : numThreads ≠ 0 := by omega
    refine ⟨_, by rw [if_neg hl, if_neg hn0], ?_, fun h => absurd (by omega) hl⟩
    intro k; exact submit_loop_count _ _ _ _ k

/-! ## Componentwise reading of the vector operations -/

section vec2_lemmas

variable {K : Type} [LinearOrderedField K]

@[simp] theorem vec2_add_x (a b : vec2 K) : (a + b).x = a.x + b.x := rfl
@[simp] theorem vec2_add_y (a b : vec2 K) : (a + b).y = a.y + b.y := rfl
@[simp] theorem vec2_sub_x (a b : vec2 K) : (a - b).x = a.x - b.x := rfl
@[simp] theorem vec2_sub_y (a b : vec2 K) : (a - b).y = a.y - b.y := rfl
@[simp] theorem vec2_neg_x (a : vec2 K) : (-a).x = -a.x := rfl
@[simp] theorem vec2_neg_y (a : vec2 K) : (-a).y = -a.y := rfl
@[simp] theorem vec2_mul_x (a : vec2 K) (s : K) : (a * s).x = a.x * s := rfl
@[simp] theorem vec2_mul_y (a : vec2 K) (s : K) : (a * s).y = a.y * s := rfl
@[simp] theorem vec2_smul_x (s : K) (a : vec2 K) : (s * a).x = s * a.x := rfl
@[simp] theorem vec2_smul_y (s : K) (a : vec2 K) : (s * a).y = s * a.y := rfl
@[simp] theorem vec2_div_x (a : vec2 K) (s : K) : (a / s).x = a.x / s := rfl
@[simp] theorem vec2_div_y (a : vec2 K) (s : K) : (a / s).y = a.y / s := rfl

theorem vec2_ext {a b : vec2 K} (hx : a.x = b.x) (hy : a.y = b.y) : a = b := by
  cases a; cases b; simp_all

end vec2_lemmas

/-! ## The loop tbb::parallel_for -/

theorem tbb_parallel_for_induct {σ : Type} (P : Nat → σ → Prop) (n : Nat) (body : Nat → σ → σ)
    (s : σ) (h0 : P 0 s) (hstep : ∀ k s, k < n → P k s → P (k + 1) (body k s)) :
    P n (tbb_parallel_for 0 n body s) := by
  unfold tbb_parallel_for
  rw [Nat.sub_zero, ← List.range_eq_range']
  have key : ∀ m, m ≤ n → P m ((List.range m).foldl (fun s i => body i s) s) := by
    intro m
    induction m with
    | zero => intro _; simpa using h0
    | succ m ih =>
      intro hm
      rw [List.range_succ, List.foldl_append]
      exact hstep m _ (by omega) (ih (by omega))
  exact key n le_rfl

section integrate

variable {K : Type} [LinearOrderedField K] [FloorRing K]

theorem particleAt_set_self (ps : List (Particle K)) (i : Nat) (q : Particle K)
    (hi : i < ps.length) : particleAt (ps.set i q) i = q := by
  simp [particleAt, List.getD_eq_getElem?_getD, hi]

theorem particleAt_set_ne (ps : List (Particle K)) (i j : Nat) (q : Particle K) (hij : i ≠ j) :
    particleAt (ps.set i q) j = particleAt ps j := by
  simp [particleAt, List.getD_eq_getElem?_getD, List.getElem?_set_ne hij]

/-- IntegrateMTBF keeps the number of particles and replaces each particle by the result of
the lambda on it. -/
theorem IntegrateMTBF_spec (c : Params K) (st : State K) :
    (IntegrateMTBF c st).particles.length = st.particles.length ∧
    ∀ i, i < st.particles.length →
      particleAt (IntegrateMTBF c st).particles i
        = integrateParticle c (particleAt st.particles i) := by
  have h := tbb_parallel_for_induct
    (fun k (s : State K) => s.particles.length = st.particles.length ∧
      ∀ i, i < st.particles.length → particleAt s.particles i
        = if i < k then integrateParticle c (particleAt st.particles i)
          else particleAt st.particles i)
    st.particles.length (integrateBody c) st
    ⟨rfl, fun i _ => by simp⟩
    (by
      intro k s hk ⟨hlen, hs⟩
      refine ⟨by simp [integrateBody, hlen], ?_⟩
      intro i hi
      by_cases hik : i = k
      · subst hik
        have h1 := hs i hi
        rw [if_neg (lt_irrefl _)] at h1
        rw [if_pos (Nat.lt_succ_self _)]
        simp only [integrateBody]
        rw [particleAt_set_self _ _ _ (by omega), h1]
      · simp only [integrateBody]
        rw [particleAt_set_ne _ _ _ _ (Ne.symm hik), hs i hi]
        by_cases h2 : i < k
        · rw [if_pos h2, if_pos (by omega)]
        · rw [if_neg h2, if_neg (by omega)])
  refine ⟨h.1, fun i hi => ?_⟩
  have := h.2 i hi
  rwa [if_pos hi] at this

/-- C2. Boundary containment: when twice the boundary epsilon fits in the window width and
height, every particle of the state IntegrateMTBF returns has position.x in
[BOUNDARY_EPSILON, WINDOW_WIDTH - BOUNDARY_EPSILON] and position.y in
[BOUNDARY_EPSILON, WINDOW_HEIGHT - BOUNDARY_EPSILON], whatever its position, velocity, force
and density were before. -/
theorem integrate_boundary_containment (c : Params K) (st : State K) (i : Nat)
    (hi : i < st.particles.length)
    (hW : 2 * BOUNDARY_EPSILON c ≤ (c.WINDOW_WIDTH : K))
    (hH : 2 * BOUNDARY_EPSILON c ≤ (c.WINDOW_HEIGHT : K)) :
    BOUNDARY_EPSILON c ≤ (particleAt (IntegrateMTBF c st).particles i).position.x ∧
    (particleAt (IntegrateMTBF c st).particles i).position.x
      ≤ (c.WINDOW_WIDTH : K) - BOUNDARY_EPSILON c ∧
    BOUNDARY_EPSILON c ≤ (particleAt (IntegrateMTBF c st).particles i).position.y ∧
    (particleAt (IntegrateMTBF c st).particles i).position.y
      ≤ (c.WINDOW_HEIGHT : K) - BOUNDARY_EPSILON c := by
  rw [(IntegrateMTBF_spec c st).2 i hi]
  simp only [integrateParticle]
  refine ⟨?_, ?_, ?_, ?_⟩ <;> split_ifs <;> linarith

/-- C8. The integration step on particle i: with v = velocity + dt * force / density and
p = position + dt * v (the new velocity), on each axis with bound B at least twice the
boundary epsilon, the final position is BOUNDARY_EPSILON with velocity component
BOUND_DAMPING * v when p - BOUNDARY_EPSILON < 0, it is B - BOUNDARY_EPSILON with velocity
component BOUND_DAMPING * v when p + BOUNDARY_EPSILON > B, and otherwise position and
velocity component are p and v; force, density and pressure are unchanged. -/
theorem integrate_step_formula (c : Params K) (st : State K) (i : Nat)
    (hi : i < st.particles.length)
    (hW : 2 * BOUNDARY_EPSILON c ≤ (c.WINDOW_WIDTH : K))
    (hH : 2 * BOUNDARY_EPSILON c ≤ (c.WINDOW_HEIGHT : K))
    (vx vy px py : K)
    (hvx : vx = (particleAt st.particles i).velocity.x
      + c.INTIGRATION_TIMESTEP * (particleAt st.particles i).force.x
        / (particleAt st.particles i).density)
    (hvy : vy = (particleAt st.particles i).velocity.y
      + c.INTIGRATION_TIMESTEP * (particleAt st.particles i).force.y
        / (particleAt st.particles i).density)
    (hpx : px = (particleAt st.particles i).position.x + c.INTIGRATION_TIMESTEP * vx)
    (hpy : py = (particleAt st.particles i).position.y + c.INTIGRATION_TIMESTEP * vy) :
    (px - BOUNDARY_EPSILON c < 0 →
      (particleAt (IntegrateMTBF c st).particles i).position.x = BOUNDARY_EPSILON c ∧
      (particleAt (IntegrateMTBF c st).particles i).velocity.x = c.BOUND_DAMPING * vx) ∧
    (px + BOUNDARY_EPSILON c > (c.WINDOW_WIDTH : K) →
      (particleAt (IntegrateMTBF c st).particles i).position.x
        = (c.WINDOW_WIDTH : K) - BOUNDARY_EPSILON c ∧
      (particleAt (IntegrateMTBF c st).particles i).velocity.x = c.BOUND_DAMPING * vx) ∧
    (¬ px - BOUNDARY_EPSILON c < 0 → ¬ px + BOUNDARY_EPSILON c > (c.WINDOW_WIDTH : K) →
      (particleAt (IntegrateMTBF c st).particles i).position.x = px ∧
      (particleAt (IntegrateMTBF c st).particles i).velocity.x = vx) ∧
    (py - BOUNDARY_EPSILON c < 0 →
      (particleAt (IntegrateMTBF c st).particles i).position.y = BOUNDARY_EPSILON c ∧
      (particleAt (IntegrateMTBF c st).particles i).velocity.y = c.BOUND_DAMPING * vy) ∧
    (py + BOUNDARY_EPSILON c > (c.WINDOW_HEIGHT : K) →
      (particleAt (IntegrateMTBF c st).particles i).position.y
        = (c.WINDOW_HEIGHT : K) - BOUNDARY_EPSILON c ∧
      (particleAt (IntegrateMTBF c st).particles i).velocity.y = c.BOUND_DAMPING * vy) ∧
    (¬ py - BOUNDARY_EPSILON c < 0 → ¬ py + BOUNDARY_EPSILON c > (c.WINDOW_HEIGHT : K) →
      (particleAt (IntegrateMTBF c st).particles i).position.y = py ∧
      (particleAt (IntegrateMTBF c st).particles i).velocity.y = vy) ∧
    (particleAt (IntegrateMTBF c st).particles i).force = (particleAt st.particles i).force ∧
    (particleAt (IntegrateMTBF c st).particles i).density
      = (particleAt st.particles i).density ∧
    (particleAt (IntegrateMTBF c st).particles i).pressure
      = (particleAt st.particles i).pressure := by
  rw [(IntegrateMTBF_spec c st).2 i hi]
  subst hpx hpy hvx hvy
  refine ⟨?_, ?_, ?_, ?_, ?_, ?_, rfl, rfl, rfl⟩ <;>
    simp only [integrateParticle, vec2_add_x, vec2_add_y, vec2_smul_x, vec2_smul_y,
      vec2_div_x, vec2_div_y]
  · intro h
    rw [if_pos h, if_pos h, if_neg (by linarith), if_neg (by linarith)]
    exact ⟨rfl, mul_comm _ _⟩
  · intro h
    have h0 : ¬ ((particleAt st.particles i).position.x + c.INTIGRATION_TIMESTEP *
        ((particleAt st.particles i).velocity.x + c.INTIGRATION_TIMESTEP *
          (particleAt st.particles i).force.x / (particleAt st.particles i).density)
        - BOUNDARY_EPSILON c < 0) := by
      intro h0; linarith
    rw [if_neg h0, if_neg h0, if_pos h, if_pos h]
    exact ⟨rfl, mul_comm _ _⟩
  · intro h0 h
    rw [if_neg h0, if_neg h0, if_neg h, if_neg h]
    exact ⟨rfl, rfl⟩
  · intro h
    rw [if_pos h, if_pos h, if_neg (by linarith), if_neg (by linarith)]
    exact ⟨rfl, mul_comm _ _⟩
  · intro h
    have h0 : ¬ ((particleAt st.particles i).position.y + c.INTIGRATION_TIMESTEP *
        ((particleAt st.particles i).velocity.y + c.INTIGRATION_TIMESTEP *
          (particleAt st.particles i).force.y / (particleAt st.particles i).density)
        - BOUNDARY_EPSILON c < 0) := by
      intro h0; linarith
    rw [if_neg h0, if_neg h0, if_pos h, if_pos h]
    exact ⟨rfl, mul_comm _ _⟩
  · intro h0 h
    rw [if_neg h0, if_neg h0, if_neg h, if_neg h]
    exact ⟨rfl, rfl⟩

end integrate

/-! ## The grid -/

section grid

variable {K : Type} [LinearOrderedField K] [FloorRing K]

theorem toInt_nonneg {x : K} (hx : 0 ≤ x) : 0 ≤ toInt x := by
  unfold toInt; rw [if_pos hx]; exact Int.floor_nonneg.mpr hx

theorem GRID_WIDTH_pos (c : Params K) (hR : 0 < c.KERNEL_RADIUS) (hW : 0 ≤ c.WINDOW_WIDTH) :
    1 ≤ GRID_WIDTH c := by
  have h : 0 ≤ (c.WINDOW_WIDTH : K) / CELL_SIZE c :=
    div_nonneg (by exact_mod_cast hW) (le_of_lt hR)
  have := toInt_nonneg h
  unfold GRID_WIDTH; omega

theorem GRID_HEIGHT_pos (c : Params K) (hR : 0 < c.KERNEL_RADIUS) (hH : 0 ≤ c.WINDOW_HEIGHT) :
    1 ≤ GRID_HEIGHT c := by
  have h : 0 ≤ (c.WINDOW_HEIGHT : K) / CELL_SIZE c :=
    div_nonneg (by exact_mod_cast hH) (le_of_lt hR)
  have := toInt_nonneg h
  unfold GRID_HEIGHT; omega

theorem clamp_bounds (x m : Int) (hm : 0 ≤ m) : 0 ≤ clamp x 0 m ∧ clamp x 0 m ≤ m := by
  unfold clamp; omega

/-- A clamped cell coordinate pair has its row-major index inside the grid. -/
theorem cell_index_in_range (c : Params K) (hW : 1 ≤ GRID_WIDTH c) (hH : 1 ≤ GRID_HEIGHT c)
    (x y : Int) :
    0 ≤ GetCellIndex c (clamp x 0 (GRID_WIDTH c - 1)) (clamp y 0 (GRID_HEIGHT c - 1)) ∧
    GetCellIndex c (clamp x 0 (GRID_WIDTH c - 1)) (clamp y 0 (GRID_HEIGHT c - 1))
      < GRID_WIDTH c * GRID_HEIGHT c := by
  have hx := clamp_bounds x (GRID_WIDTH c - 1) (by omega)
  have hy := clamp_bounds y (GRID_HEIGHT c - 1) (by omega)
  unfold GetCellIndex
  constructor
  · have := mul_nonneg hy.1 (by omega : (0 : Int) ≤ GRID_WIDTH c)
    omega
  · have h1 : clamp y 0 (GRID_HEIGHT c - 1) * GRID_WIDTH c
        ≤ (GRID_HEIGHT c - 1) * GRID_WIDTH c :=
      mul_le_mul_of_nonneg_right hy.2 (by omega)
    have h2 : (GRID_HEIGHT c - 1) * GRID_WIDTH c
        = GRID_WIDTH c * GRID_HEIGHT c - GRID_WIDTH c := by ring
    omega

theorem slotOf_lt (c : Params K) (hW : 1 ≤ GRID_WIDTH c) (hH : 1 ≤ GRID_HEIGHT c)
    (pos : vec2 K) : slotOf c pos < (GRID_WIDTH c * GRID_HEIGHT c).toNat := by
  have h := cell_index_in_range c hW hH (GetCell c pos).x (GetCell c pos).y
  unfold slotOf
  omega

/-- Truncation and floor agree once clamped from below at zero. -/
theorem clamp_toInt_eq_clamp_floor (v : K) (m : Int) :
    clamp (toInt v) 0 m = clamp (Int.floor v) 0 m := by
  unfold toInt
  by_cases h : 0 ≤ v
  · rw [if_pos h]
  · rw [if_neg h]
    have hv : v < 0 := lt_of_not_ge h
    have h1 : Int.ceil v ≤ 0 := Int.ceil_le.mpr (by exact_mod_cast le_of_lt hv)
    have h2 : Int.floor v < 0 := by
      have : ((Int.floor v : Int) : K) < ((0 : Int) : K) :=
        lt_of_le_of_lt (Int.floor_le v) (by simpa using hv)
      exact_mod_cast this
    unfold clamp; omega

/-- Pushing each index of l onto the slot f assigns it: slot k afterwards holds what it held
before followed by the indices of l that f sends to k, in order. -/
theorem foldl_push_getD (f : Nat → Nat) (l : List Nat) :
    ∀ (g : List (List Nat)), (∀ i ∈ l, f i < g.length) →
    (l.foldl (fun grid i => grid.set (f i) (grid.getD (f i) [] ++ [i])) g).length = g.length ∧
    ∀ k, k < g.length →
      (l.foldl (fun grid i => grid.set (f i) (grid.getD (f i) [] ++ [i])) g).getD k []
        = g.getD k [] ++ l.filter (fun i => f i = k) := by
  induction l with
  | nil => intro g _; simp
  | cons a l ih =>
    intro g hg
    have hl : ∀ i ∈ l, f i < (g.set (f a) (g.getD (f a) [] ++ [a])).length := by
      intro i hi; rw [List.length_set]; exact hg i (List.mem_cons_of_mem _ hi)
    have h := ih (g.set (f a) (g.getD (f a) [] ++ [a])) hl
    rw [List.length_set] at h
    refine ⟨by simpa using h.1, fun k hk => ?_⟩
    rw [List.foldl_cons, h.2 k hk]
    by_cases hak : f a = k
    · subst hak
      simp [List.getD_eq_getElem?_getD, hk, List.filter_cons]
    · simp [List.getD_eq_getElem?_getD, List.getElem?_set_ne hak, List.filter_cons, hak]

/-- After BuildGrid the grid has GRID_WIDTH * GRID_HEIGHT cells and cell k holds, in
increasing order, the particle indices whose slot is k. -/
theorem BuildGrid_grid (c : Params K) (st : State K)
    (hW : 1 ≤ GRID_WIDTH c) (hH : 1 ≤ GRID_HEIGHT c) :
    (BuildGrid c st).grid.length = (GRID_WIDTH c * GRID_HEIGHT c).toNat ∧
    ∀ k, k < (GRID_WIDTH c * GRID_HEIGHT c).toNat →
      (BuildGrid c st).grid.getD k []
        = (List.range st.particles.length).filter
            (fun i => slotOf c (particleAt st.particles i).position = k) := by
  have h := foldl_push_getD (fun i => slotOf c (particleAt st.particles i).position)
    (List.range st.particles.length)
    (List.replicate (GRID_WIDTH c * GRID_HEIGHT c).toNat [])
    (by intro i _; rw [List.length_replicate]; exact slotOf_lt c hW hH _)
  rw [List.length_replicate] at h
  refine ⟨h.1, fun k hk => ?_⟩
  have h2 := h.2 k hk
  have h3 : (List.replicate (GRID_WIDTH c * GRID_HEIGHT c).toNat ([] : List Nat)).getD k []
      = [] := by
    rw [List.getD_eq_getElem?_getD, List.getElem?_replicate]
    split_ifs <;> rfl
  rw [h3, List.nil_append] at h2
  exact h2

theorem BuildGrid_particles (c : Params K) (st : State K) :
    (BuildGrid c st).particles = st.particles := rfl

theorem BuildGrid_neighbor_buffer (c : Params K) (st : State K) :
    (BuildGrid c st).neighbor_buffer = st.neighbor_buffer := rfl

theorem count_filter_range (n : Nat) (p : Nat → Prop) [DecidablePred p] (i : Nat) :
    ((List.range n).filter (fun i => decide (p i))).count i = if i < n ∧ p i then 1 else 0 := by
  by_cases h : i < n ∧ p i
  · rw [if_pos h]
    apply List.count_eq_one_of_mem ((List.nodup_range n).filter _)
    simp [List.mem_filter, h.1, h.2]
  · rw [if_neg h]
    apply List.count_eq_zero_of_not_mem
    simp only [List.mem_filter, List.mem_range, decide_eq_true_eq]
    exact h

/-- C6. After BuildGrid, whatever the grid held before, the grid has
GRID_WIDTH * GRID_HEIGHT cells; each particle index i below the particle count occurs exactly
once in the cell with row-major index cy * GRID_WIDTH + cx, where cx and cy are the floors of
position.x / CELL_SIZE and position.y / CELL_SIZE clamped to the grid, that index lies inside
the grid, and no cell holds anything else. -/
theorem BuildGrid_each_index_in_its_cell_once (c : Params K) (st : State K)
    (hW : 1 ≤ GRID_WIDTH c) (hH : 1 ≤ GRID_HEIGHT c) :
    (BuildGrid c st).grid.length = (GRID_WIDTH c * GRID_HEIGHT c).toNat ∧
    (∀ i, i < st.particles.length →
      0 ≤ clamp (Int.floor ((particleAt st.particles i).position.y / CELL_SIZE c)) 0
            (GRID_HEIGHT c - 1) * GRID_WIDTH c
          + clamp (Int.floor ((particleAt st.particles i).position.x / CELL_SIZE c)) 0
            (GRID_WIDTH c - 1) ∧
      clamp (Int.floor ((particleAt st.particles i).position.y / CELL_SIZE c)) 0
            (GRID_HEIGHT c - 1) * GRID_WIDTH c
          + clamp (Int.floor ((particleAt st.particles i).position.x / CELL_SIZE c)) 0
            (GRID_WIDTH c - 1) < GRID_WIDTH c * GRID_HEIGHT c) ∧
    ∀ (k i : Nat), k < (BuildGrid c st).grid.length →
      ((BuildGrid c st).grid.getD k []).count i
        = if i < st.particles.length ∧
            (k : Int) = clamp (Int.floor ((particleAt st.particles i).position.y / CELL_SIZE c)) 0
                (GRID_HEIGHT c - 1) * GRID_WIDTH c
              + clamp (Int.floor ((particleAt st.particles i).position.x / CELL_SIZE c)) 0
                (GRID_WIDTH c - 1)
          then 1 else 0 := by
  have hg := BuildGrid_grid c st hW hH
  refine ⟨hg.1, ?_, ?_⟩
  · intro i _
    exact cell_index_in_range c hW hH _ _
  · intro k i hk
    rw [hg.1] at hk
    rw [hg.2 k hk, count_filter_range]
    have hr := cell_index_in_range c hW hH
      (Int.floor ((particleAt st.particles i).position.x / CELL_SIZE c))
      (Int.floor ((particleAt st.particles i).position.y / CELL_SIZE c))
    have hs : slotOf c (particleAt st.particles i).position
        = (clamp (Int.floor ((particleAt st.particles i).position.y / CELL_SIZE c)) 0
                (GRID_HEIGHT c - 1) * GRID_WIDTH c
              + clamp (Int.floor ((particleAt st.particles i).position.x / CELL_SIZE c)) 0
                (GRID_WIDTH c - 1)).toNat := by
      simp only [slotOf, GetCell, clamp_toInt_eq_clamp_floor, GetCellIndex]
    unfold GetCellIndex at hr
    rw [hs]
    congr 1
    apply propext
    constructor
    · rintro ⟨h1, h2⟩; exact ⟨h1, by omega⟩
    · rintro ⟨h1, h2⟩; exact ⟨h1, by omega⟩

end grid

/-! ## The cell scan of GetNearNeighborsMTBF -/

section scan

variable {K : Type} [LinearOrderedField K] [FloorRing K]

theorem foldl_push_if {α : Type} (p : α → Prop) [DecidablePred p] (l : List α) :
    ∀ init : List α,
      l.foldl (fun acc j => if p j then acc ++ [j] else acc) init
        = init ++ l.filter (fun j => decide (p j)) := by
  induction l with
  | nil => intro init; simp
  | cons a l ih =>
    intro init
    rw [List.foldl_cons, ih]
    by_cases h : p a
    · simp [List.filter_cons, h]
    · simp [List.filter_cons, h]

theorem foldl_append_flatMap {α β : Type} (f : α → List β) (l : List α) :
    ∀ init : List β, l.foldl (fun acc x => acc ++ f x) init = init ++ l.flatMap f := by
  induction l with
  | nil => intro init; simp
  | cons a l ih => intro init; rw [List.foldl_cons, ih]; simp [List.flatMap_cons]

/-- With CELL_SIZE = KERNEL_RADIUS nonzero the scan range is 1. -/
theorem scan_range_eq_one (c : Params K) (hR : c.KERNEL_RADIUS ≠ 0) :
    toInt ((Int.ceil (c.KERNEL_RADIUS / CELL_SIZE c) : Int) : K) = 1 := by
  unfold CELL_SIZE
  rw [div_self hR]
  simp [toInt]

theorem offsets_one : offsets 1 = [-1, 0, 1] := by decide

/-- The cell scan as a list comprehension: for each offset pair, in loop order, the members
of the clamped cell that pass the kernel test. -/
theorem scanCells_eq (c : Params K) (ps : List (Particle K)) (grid : List (List Nat))
    (pos : vec2 K) (hR : c.KERNEL_RADIUS ≠ 0) :
    scanCells c ps grid pos
      = ([-1, 0, 1] : List Int).flatMap (fun offset_x =>
          ([-1, 0, 1] : List Int).flatMap (fun offset_y =>
            (grid.getD (GetCellIndex c
                (clamp ((GetCell c pos).x + offset_x) 0 (GRID_WIDTH c - 1))
                (clamp ((GetCell c pos).y + offset_y) 0 (GRID_HEIGHT c - 1))).toNat []).filter
              (fun j => decide (dot ((particleAt ps j).position - pos)
                ((particleAt ps j).position - pos) < KERNEL_RADIUS_SQR c)))) := by
  unfold scanCells
  simp only [scan_range_eq_one c hR, offsets_one]
  simp only [foldl_push_if, foldl_append_flatMap, List.nil_append]

theorem scanCells_congr (c : Params K) (ps ps1 : List (Particle K)) (grid : List (List Nat))
    (pos : vec2 K)
    (h : ∀ j, (particleAt ps1 j).position = (particleAt ps j).position) :
    scanCells c ps1 grid pos = scanCells c ps grid pos := by
  unfold scanCells
  simp only [h]

theorem mem_scanCells (c : Params K) (ps : List (Particle K)) (grid : List (List Nat))
    (pos : vec2 K) (hR : c.KERNEL_RADIUS ≠ 0) (j : Nat) :
    j ∈ scanCells c ps grid pos ↔
      ∃ offset_x ∈ ([-1, 0, 1] : List Int), ∃ offset_y ∈ ([-1, 0, 1] : List Int),
        j ∈ grid.getD (GetCellIndex c
              (clamp ((GetCell c pos).x + offset_x) 0 (GRID_WIDTH c - 1))
              (clamp ((GetCell c pos).y + offset_y) 0 (GRID_HEIGHT c - 1))).toNat [] ∧
        dot ((particleAt ps j).position - pos) ((particleAt ps j).position - pos)
          < KERNEL_RADIUS_SQR c := by
  rw [scanCells_eq c ps grid pos hR]
  simp only [List.mem_flatMap, List.mem_filter, decide_eq_true_eq]

/-- Membership in a cell after BuildGrid. -/
theorem mem_BuildGrid_cell (c : Params K) (st : State K)
    (hW : 1 ≤ GRID_WIDTH c) (hH : 1 ≤ GRID_HEIGHT c) (x y : Int) (j : Nat) :
    j ∈ (BuildGrid c st).grid.getD (GetCellIndex c (clamp x 0 (GRID_WIDTH c - 1))
        (clamp y 0 (GRID_HEIGHT c - 1))).toNat [] ↔
      j < st.particles.length ∧
      slotOf c (particleAt st.particles j).position
        = (GetCellIndex c (clamp x 0 (GRID_WIDTH c - 1))
            (clamp y 0 (GRID_HEIGHT c - 1))).toNat := by
  have hr := cell_index_in_range c hW hH x y
  rw [(BuildGrid_grid c st hW hH).2 _ (by omega)]
  simp [List.mem_filter]

/-- Truncation moves by at most one cell when its argument moves by less than one. -/
theorem toInt_le_add_one {a b : K} (h : b < a + 1) : toInt b ≤ toInt a + 1 := by
  unfold toInt
  have fa := Int.floor_le a
  have fa1 := Int.lt_floor_add_one a
  have fb := Int.floor_le b
  have ca := Int.le_ceil a
  have ca1 := Int.ceil_lt_add_one a
  have cb1 := Int.ceil_lt_add_one b
  by_cases ha : 0 ≤ a <;> by_cases hb : 0 ≤ b
  · rw [if_pos ha, if_pos hb]
    have : ((Int.floor b : Int) : K) < ((Int.floor a + 2 : Int) : K) := by
      push_cast; linarith
    have := Int.cast_lt.mp this
    omega
  · rw [if_pos ha, if_neg hb]
    have h1 : Int.ceil b ≤ 0 := Int.ceil_le.mpr (by push_cast; linarith [lt_of_not_ge hb])
    have h2 : 0 ≤ Int.floor a := Int.floor_nonneg.mpr ha
    omega
  · rw [if_neg ha, if_pos hb]
    have h1 : ((Int.floor b : Int) : K) < ((1 : Int) : K) := by
      push_cast; linarith [lt_of_not_ge ha]
    have h1 := Int.cast_lt.mp h1
    have h2 : ((-1 : Int) : K) < ((Int.ceil a : Int) : K) := by
      push_cast; linarith
    have h2 := Int.cast_lt.mp h2
    omega
  · rw [if_neg ha, if_neg hb]
    have : ((Int.ceil b : Int) : K) < ((Int.ceil a + 2 : Int) : K) := by
      push_cast; linarith
    have := Int.cast_lt.mp this
    omega

/-- Two positions closer than the kernel radius on an axis have cell coordinates on that
axis that differ by -1, 0 or 1. -/
theorem cell_offset_mem (R xi xj : K) (hR : 0 < R) (h1 : xj - xi < R) (h2 : xi - xj < R) :
    toInt (xj / R) - toInt (xi / R) ∈ ([-1, 0, 1] : List Int) := by
  have e1 : xj / R < xi / R + 1 := by
    rw [div_add_one (ne_of_gt hR)]
    exact div_lt_div_of_pos_right (by linarith) hR
  have e2 : xi / R < xj / R + 1 := by
    rw [div_add_one (ne_of_gt hR)]
    exact div_lt_div_of_pos_right (by linarith) hR
  have a1 := toInt_le_add_one e1
  have a2 := toInt_le_add_one e2
  have : toInt (xj / R) - toInt (xi / R) = -1 ∨ toInt (xj / R) - toInt (xi / R) = 0 ∨
      toInt (xj / R) - toInt (xi / R) = 1 := by omega
  simpa using this

theorem abs_component_lt (R dx dy : K) (hR : 0 < R) (h : dx * dx + dy * dy < R * R) :
    dx < R ∧ -dx < R := by
  constructor
  · by_contra hc
    push_neg at hc
    nlinarith [mul_self_nonneg dy, mul_le_mul hc hc (le_of_lt hR) (le_trans (le_of_lt hR) hc)]
  · by_contra hc
    push_neg at hc
    nlinarith [mul_self_nonneg dy, mul_le_mul hc hc (le_of_lt hR) (le_trans (le_of_lt hR) hc)]

/-- The scan from the position of particle i over the grid BuildGrid made finds every
particle j whose squared distance to i is below KERNEL_RADIUS_SQR. -/
theorem scan_finds_neighbor (c : Params K) (st : State K) (i j : Nat)
    (hj : j < st.particles.length) (hR : 0 < c.KERNEL_RADIUS)
    (hW : 0 ≤ c.WINDOW_WIDTH) (hH : 0 ≤ c.WINDOW_HEIGHT)
    (hd : r2 st.particles i j < KERNEL_RADIUS_SQR c) :
    j ∈ scanCells c st.particles (BuildGrid c st).grid (particleAt st.particles i).position := by
  have hGW := GRID_WIDTH_pos c hR hW
  have hGH := GRID_HEIGHT_pos c hR hH
  rw [mem_scanCells c _ _ _ (ne_of_gt hR)]
  unfold r2 dot KERNEL_RADIUS_SQR at hd
  simp only [vec2_sub_x, vec2_sub_y] at hd
  have hx := abs_component_lt c.KERNEL_RADIUS _ _ hR hd
  have hy := abs_component_lt c.KERNEL_RADIUS _ _ hR (by rw [add_comm]; exact hd)
  refine ⟨_, cell_offset_mem c.KERNEL_RADIUS (particleAt st.particles i).position.x
      (particleAt st.particles j).position.x hR hx.1 (by linarith [hx.2]),
    _, cell_offset_mem c.KERNEL_RADIUS (particleAt st.particles i).position.y
      (particleAt st.particles j).position.y hR hy.1 (by linarith [hy.2]), ?_, ?_⟩
  · rw [mem_BuildGrid_cell c st hGW hGH]
    refine ⟨hj, ?_⟩
    simp only [slotOf, GetCell, CELL_SIZE, add_sub_cancel]
  · simpa [dot, KERNEL_RADIUS_SQR] using hd

theorem getD_set_self {α : Type} (l : List α) (i : Nat) (a d : α) (hi : i < l.length) :
    (l.set i a).getD i d = a := by
  simp [List.getD_eq_getElem?_getD, hi]

end scan

/-! ## The density and pressure pass -/

section density

variable {K : Type} [LinearOrderedField K] [FloorRing K]

theorem foldl_add_eq_sum {α : Type} (t : α → K) (l : List α) :
    ∀ init : K, l.foldl (fun acc j => acc + t j) init = init + (l.map t).sum := by
  induction l with
  | nil => intro init; simp
  | cons a l ih => intro init; rw [List.foldl_cons, ih]; simp [add_assoc]

/-- The state after the lambda of ComputeDensityPressureMTBF ran for index k. -/
theorem densityPressureBody_eq (c : Params K) (s : State K) (k : Nat)
    (hk : k < s.neighbor_buffer.length) :
    densityPressureBody c k s =
      { s with
        particles := s.particles.set k
          { particleAt s.particles k with
            density := ((scanCells c s.particles s.grid (particleAt s.particles k).position).map
              (densityTerm c s.particles k)).sum
            pressure := c.GAS_CONSTANT *
              (((scanCells c s.particles s.grid (particleAt s.particles k).position).map
                (densityTerm c s.particles k)).sum - c.REST_DENSITY) }
        neighbor_buffer := s.neighbor_buffer.set k
          (scanCells c s.particles s.grid (particleAt s.particles k).position) } := by
  unfold densityPressureBody GetNearNeighborsMTBF
  simp only [getD_set_self _ _ _ _ hk, foldl_add_eq_sum, zero_add]
  rfl

theorem densityTerm_congr (c : Params K) (ps ps1 : List (Particle K)) (i j : Nat)
    (h : ∀ j, (particleAt ps1 j).position = (particleAt ps j).position) :
    densityTerm c ps1 i j = densityTerm c ps i j := by
  simp only [densityTerm, r2, h]

/-- What ComputeDensityPressureMTBF leaves behind: the grid of BuildGrid, and for every
particle i its neighbor list (the cell scan from its position) and its density (the sum of
the density terms over that list) and pressure; the other fields are untouched. -/
theorem ComputeDensityPressureMTBF_spec (c : Params K) (st : State K)
    (hbuf : st.particles.length ≤ st.neighbor_buffer.length) :
    (ComputeDensityPressureMTBF c st).particles.length = st.particles.length ∧
    (ComputeDensityPressureMTBF c st).neighbor_buffer.length = st.neighbor_buffer.length ∧
    (ComputeDensityPressureMTBF c st).grid = (BuildGrid c st).grid ∧
    (ComputeDensityPressureMTBF c st).rng = st.rng ∧
    ∀ i, i < st.particles.length →
      particleAt (ComputeDensityPressureMTBF c st).particles i =
        { particleAt st.particles i with
          density := ((scanCells c st.particles (BuildGrid c st).grid
              (particleAt st.particles i).position).map (densityTerm c st.particles i)).sum
          pressure := c.GAS_CONSTANT *
            (((scanCells c st.particles (BuildGrid c st).grid
              (particleAt st.particles i).position).map (densityTerm c st.particles i)).sum
              - c.REST_DENSITY) } ∧
      (ComputeDensityPressureMTBF c st).neighbor_buffer.getD i [] =
        scanCells c st.particles (BuildGrid c st).grid (particleAt st.particles i).position := by
  have h := tbb_parallel_for_induct
    (fun k (s : State K) =>
      s.particles.length = st.particles.length ∧
      s.neighbor_buffer.length = st.neighbor_buffer.length ∧
      s.grid = (BuildGrid c st).grid ∧
      s.rng = st.rng ∧
      (∀ i, (particleAt s.particles i).position = (particleAt st.particles i).position) ∧
      (∀ i, k ≤ i → particleAt s.particles i = particleAt st.particles i) ∧
      ∀ i, i < k →
        particleAt s.particles i =
          { particleAt st.particles i with
            density := ((scanCells c st.particles (BuildGrid c st).grid
                (particleAt st.particles i).position).map (densityTerm c st.particles i)).sum
            pressure := c.GAS_CONSTANT *
              (((scanCells c st.particles (BuildGrid c st).grid
                (particleAt st.particles i).position).map (densityTerm c st.particles i)).sum
                - c.REST_DENSITY) } ∧
        s.neighbor_buffer.getD i [] =
          scanCells c st.particles (BuildGrid c st).grid (particleAt st.particles i).position)
    st.particles.length (densityPressureBody c) (BuildGrid c st)
    ⟨rfl, rfl, rfl, rfl, fun _ => rfl, fun _ _ => rfl, fun i hi => absurd hi (Nat.not_lt_zero i)⟩
    (by
      intro k s hk ⟨hlen, hblen, hgrid, hrng, hpos, hrest, hdone⟩
      have hkb : k < s.neighbor_buffer.length := by omega
      have hkp : k < s.particles.length := by omega
      rw [densityPressureBody_eq c s k hkb]
      have hsc : scanCells c s.particles s.grid (particleAt s.particles k).position
          = scanCells c st.particles (BuildGrid c st).grid
              (particleAt st.particles k).position := by
        rw [hgrid, hpos k]; exact scanCells_congr c _ _ _ _ hpos
      have hterm : densityTerm c s.particles k = densityTerm c st.particles k := by
        funext j; exact densityTerm_congr c _ _ k j hpos
      rw [hsc, hterm, hrest k le_rfl]
      refine ⟨by simp [hlen], by simp [hblen], hgrid, hrng, ?_, ?_, ?_⟩
      · intro i
        by_cases hik : k = i
        · subst hik; simp only []; rw [particleAt_set_self _ _ _ hkp]
        · simp only []; rw [particleAt_set_ne _ _ _ _ hik]; exact hpos i
      · intro i hi
        simp only []; rw [particleAt_set_ne _ _ _ _ (by omega)]; exact hrest i (by omega)
      · intro i hi
        by_cases hik : k = i
        · subst hik
          simp only []
          rw [particleAt_set_self _ _ _ hkp, getD_set_self _ _ _ _ hkb]
          exact ⟨rfl, rfl⟩
        · simp only []
          rw [particleAt_set_ne _ _ _ _ hik]
          have hget : (s.neighbor_buffer.set k
              (scanCells c st.particles (BuildGrid c st).grid
                (particleAt st.particles k).position)).getD i []
              = s.neighbor_buffer.getD i [] := by
            simp [List.getD_eq_getElem?_getD, List.getElem?_set_ne hik]
          rw [hget]
          exact hdone i (by omega))
  have h2 : ComputeDensityPressureMTBF c st
      = tbb_parallel_for 0 st.particles.length (densityPressureBody c) (BuildGrid c st) := rfl
  rw [h2]
  exact ⟨h.1, h.2.1, h.2.2.1, h.2.2.2.1, fun i hi => h.2.2.2.2.2.2 i hi⟩

theorem densityTerm_self (c : Params K) (ps : List (Particle K)) (i : Nat) :
    densityTerm c ps i i = c.PARTICLE_MASS * POLY6 c * c.KERNEL_RADIUS ^ 6 := by
  simp only [densityTerm, r2, dot, KERNEL_RADIUS_SQR, vec2_sub_x, vec2_sub_y]
  ring

theorem r2_self (ps : List (Particle K)) (i : Nat) : r2 ps i i = 0 := by
  simp [r2, dot]

theorem mem_scanCells_test (c : Params K) (ps : List (Particle K)) (grid : List (List Nat))
    (i j : Nat) (hR : c.KERNEL_RADIUS ≠ 0)
    (h : j ∈ scanCells c ps grid (particleAt ps i).position) :
    r2 ps i j < KERNEL_RADIUS_SQR c := by
  rw [mem_scanCells c _ _ _ hR] at h
  obtain ⟨_, _, _, _, _, h⟩ := h
  exact h

/-- C5. With KERNEL_RADIUS positive and PARTICLE_MASS and POLY6 nonnegative, after
ComputeDensityPressureMTBF the density of every particle is at least its self term
PARTICLE_MASS * POLY6 * KERNEL_RADIUS^6, and so nonnegative. The window dimensions are
nonnegative and the neighbor buffer has a list for every particle, as main sets it up. -/
theorem density_at_least_self_term (c : Params K) (st : State K) (i : Nat)
    (hi : i < st.particles.length)
    (hR : 0 < c.KERNEL_RADIUS) (hm : 0 ≤ c.PARTICLE_MASS) (hp : 0 ≤ POLY6 c)
    (hW : 0 ≤ c.WINDOW_WIDTH) (hH : 0 ≤ c.WINDOW_HEIGHT)
    (hbuf : st.particles.length ≤ st.neighbor_buffer.length) :
    c.PARTICLE_MASS * POLY6 c * c.KERNEL_RADIUS ^ 6
      ≤ (particleAt (ComputeDensityPressureMTBF c st).particles i).density ∧
    0 ≤ (particleAt (ComputeDensityPressureMTBF c st).particles i).density := by
  have hspec := ((ComputeDensityPressureMTBF_spec c st hbuf).2.2.2.2 i hi).1
  have hself : i ∈ scanCells c st.particles (BuildGrid c st).grid
      (particleAt st.particles i).position :=
    scan_finds_neighbor c st i i hi hR hW hH (by
      rw [r2_self]; unfold KERNEL_RADIUS_SQR; exact mul_pos hR hR)
  have hnonneg : ∀ x ∈ (scanCells c st.particles (BuildGrid c st).grid
      (particleAt st.particles i).position).map (densityTerm c st.particles i), 0 ≤ x := by
    intro x hx
    obtain ⟨j, hj, rfl⟩ := List.mem_map.mp hx
    have ht := mem_scanCells_test c _ _ i j (ne_of_gt hR) hj
    unfold densityTerm
    exact mul_nonneg (mul_nonneg hm hp) (pow_nonneg (by linarith) 3)
  have hle := List.single_le_sum hnonneg _ (List.mem_map.mpr ⟨i, hself, rfl⟩)
  rw [densityTerm_self] at hle
  rw [hspec]
  refine ⟨hle, le_trans ?_ hle⟩
  exact mul_nonneg (mul_nonneg hm hp) (pow_nonneg (le_of_lt hR) 6)

end density

/-! ## Exactness of the density sum away from the grid border -/

section exact_density

variable {K : Type} [LinearOrderedField K] [FloorRing K]

theorem nodup_flatMap_of_inj {α β : Type} (l : List α) (f : α → List β) (hl : l.Nodup)
    (hf : ∀ a ∈ l, (f a).Nodup)
    (hdis : ∀ a ∈ l, ∀ b ∈ l, ∀ x, x ∈ f a → x ∈ f b → a = b) :
    (l.flatMap f).Nodup := by
  rw [List.nodup_flatMap]
  refine ⟨hf, hl.pairwise_of_forall_ne ?_⟩
  intro a ha b hb hab x hxa hxb
  exact hab (hdis a ha b hb x hxa hxb)

/-- Row-major indices of in-range coordinates determine the coordinates. -/
theorem row_major_inj (w x y x1 y1 : Int) (hx : 0 ≤ x) (hxw : x < w) (hx1 : 0 ≤ x1)
    (hx1w : x1 < w) (h : y * w + x = y1 * w + x1) : x = x1 ∧ y = y1 := by
  have hy : y = y1 := by
    rcases lt_trichotomy y y1 with hlt | heq | hgt
    · exfalso
      have : (y + 1) * w ≤ y1 * w := mul_le_mul_of_nonneg_right (by omega) (by omega)
      have e : (y + 1) * w = y * w + w := by ring
      omega
    · exact heq
    · exfalso
      have : (y1 + 1) * w ≤ y * w := mul_le_mul_of_nonneg_right (by omega) (by omega)
      have e : (y1 + 1) * w = y1 * w + w := by ring
      omega
  subst hy
  exact ⟨by omega, rfl⟩

theorem clamp_eq_self (x m : Int) (h0 : 0 ≤ x) (hm : x ≤ m) : clamp x 0 m = x := by
  unfold clamp; omega

theorem mem_offsets_bounds {o : Int} (h : o ∈ ([-1, 0, 1] : List Int)) : -1 ≤ o ∧ o ≤ 1 := by
  have : o = -1 ∨ o = 0 ∨ o = 1 := by simpa using h
  omega

/-- When the cell of the scanned position is not on the border of the grid, the scan over
the grid of BuildGrid lists no particle twice. -/
theorem scan_nodup_interior (c : Params K) (st : State K) (pos : vec2 K)
    (hR : 0 < c.KERNEL_RADIUS) (hW : 0 ≤ c.WINDOW_WIDTH) (hH : 0 ≤ c.WINDOW_HEIGHT)
    (hx0 : 1 ≤ (GetCell c pos).x) (hx1 : (GetCell c pos).x ≤ GRID_WIDTH c - 2)
    (hy0 : 1 ≤ (GetCell c pos).y) (hy1 : (GetCell c pos).y ≤ GRID_HEIGHT c - 2) :
    (scanCells c st.particles (BuildGrid c st).grid pos).Nodup := by
  have hGW := GRID_WIDTH_pos c hR hW
  have hGH := GRID_HEIGHT_pos c hR hH
  rw [scanCells_eq c _ _ _ (ne_of_gt hR)]
  have hoff : ([-1, 0, 1] : List Int).Nodup := by decide
  have hcell : ∀ ox ∈ ([-1, 0, 1] : List Int), ∀ oy ∈ ([-1, 0, 1] : List Int), ∀ j,
      j ∈ ((BuildGrid c st).grid.getD (GetCellIndex c
          (clamp ((GetCell c pos).x + ox) 0 (GRID_WIDTH c - 1))
          (clamp ((GetCell c pos).y + oy) 0 (GRID_HEIGHT c - 1))).toNat []).filter
        (fun j => decide (dot ((particleAt st.particles j).position - pos)
          ((particleAt st.particles j).position - pos) < KERNEL_RADIUS_SQR c)) →
      (slotOf c (particleAt st.particles j).position : Int)
        = ((GetCell c pos).y + oy) * GRID_WIDTH c + ((GetCell c pos).x + ox) := by
    intro ox hox oy hoy j hj
    have hj1 := (List.mem_filter.mp hj).1
    rw [mem_BuildGrid_cell c st hGW hGH] at hj1
    have hr := cell_index_in_range c hGW hGH ((GetCell c pos).x + ox) ((GetCell c pos).y + oy)
    have bx := mem_offsets_bounds hox
    have b_y := mem_offsets_bounds hoy
    rw [hj1.2, Int.toNat_of_nonneg hr.1, clamp_eq_self _ _ (by omega) (by omega),
      clamp_eq_self _ _ (by omega) (by omega)]
    rfl
  apply nodup_flatMap_of_inj _ _ hoff
  · intro ox hox
    apply nodup_flatMap_of_inj _ _ hoff
    · intro oy _
      have hr := cell_index_in_range c hGW hGH ((GetCell c pos).x + ox) ((GetCell c pos).y + oy)
      rw [(BuildGrid_grid c st hGW hGH).2 _ (by omega)]
      exact ((List.nodup_range _).filter _).filter _
    · intro a ha b hb j hja hjb
      have e1 := hcell ox hox a ha j hja
      have e2 := hcell ox hox b hb j hjb
      have bx := mem_offsets_bounds hox
      rw [e1] at e2
      have := (row_major_inj (GRID_WIDTH c) _ _ _ _ (by omega) (by omega) (by omega) (by omega)
        e2).2
      omega
  · intro a ha b hb j hja hjb
    obtain ⟨oy, hoy, hj1⟩ := List.mem_flatMap.mp hja
    obtain ⟨oy1, hoy1, hj2⟩ := List.mem_flatMap.mp hjb
    have e1 := hcell a ha oy hoy j hj1
    have e2 := hcell b hb oy1 hoy1 j hj2
    have ba := mem_offsets_bounds ha
    have bb := mem_offsets_bounds hb
    rw [e1] at e2
    have := (row_major_inj (GRID_WIDTH c) _ _ _ _ (by omega) (by omega) (by omega) (by omega)
      e2).1
    omega

/-- The scan over the grid of BuildGrid lists only particle indices, and only those that
pass the kernel test. -/
theorem mem_scan_lt (c : Params K) (st : State K) (pos : vec2 K) (j : Nat)
    (hR : 0 < c.KERNEL_RADIUS) (hW : 0 ≤ c.WINDOW_WIDTH) (hH : 0 ≤ c.WINDOW_HEIGHT)
    (h : j ∈ scanCells c st.particles (BuildGrid c st).grid pos) :
    j < st.particles.length := by
  rw [mem_scanCells c _ _ _ (ne_of_gt hR)] at h
  obtain ⟨ox, _, oy, _, hj, _⟩ := h
  rw [mem_BuildGrid_cell c st (GRID_WIDTH_pos c hR hW) (GRID_HEIGHT_pos c hR hH)] at hj
  exact hj.1

/-- Away from the grid border the density pass sums the density term once over each particle
within the kernel radius. -/
theorem density_eq_sum_of_cell_interior (c : Params K) (st : State K) (i : Nat)
    (hi : i < st.particles.length)
    (hR : 0 < c.KERNEL_RADIUS) (hW : 0 ≤ c.WINDOW_WIDTH) (hH : 0 ≤ c.WINDOW_HEIGHT)
    (hbuf : st.particles.length ≤ st.neighbor_buffer.length)
    (hx0 : 1 ≤ (GetCell c (particleAt st.particles i).position).x)
    (hx1 : (GetCell c (particleAt st.particles i).position).x ≤ GRID_WIDTH c - 2)
    (hy0 : 1 ≤ (GetCell c (particleAt st.particles i).position).y)
    (hy1 : (GetCell c (particleAt st.particles i).position).y ≤ GRID_HEIGHT c - 2) :
    (particleAt (ComputeDensityPressureMTBF c st).particles i).density
      = Finset.sum
          ((Finset.range st.particles.length).filter
            (fun j => r2 st.particles i j < c.KERNEL_RADIUS ^ 2))
          (fun j => c.PARTICLE_MASS * POLY6 c *
            (c.KERNEL_RADIUS ^ 2 - r2 st.particles i j) ^ 3) := by
  have hspec := ((ComputeDensityPressureMTBF_spec c st hbuf).2.2.2.2 i hi).1
  have hnd := scan_nodup_interior c st (particleAt st.particles i).position hR hW hH
    hx0 hx1 hy0 hy1
  rw [hspec]
  show ((scanCells c st.particles (BuildGrid c st).grid
      (particleAt st.particles i).position).map (densityTerm c st.particles i)).sum = _
  rw [← List.sum_toFinset _ hnd]
  have hset : (scanCells c st.particles (BuildGrid c st).grid
      (particleAt st.particles i).position).toFinset
      = (Finset.range st.particles.length).filter
          (fun j => r2 st.particles i j < c.KERNEL_RADIUS ^ 2) := by
    ext j
    simp only [List.mem_toFinset, Finset.mem_filter, Finset.mem_range]
    constructor
    · intro hj
      refine ⟨mem_scan_lt c st _ j hR hW hH hj, ?_⟩
      have := mem_scanCells_test c _ _ i j (ne_of_gt hR) hj
      rw [pow_two]; exact this
    · rintro ⟨hj, ht⟩
      exact scan_finds_neighbor c st i j hj hR hW hH (by
        unfold KERNEL_RADIUS_SQR; rw [← pow_two]; exact ht)
  rw [hset]
  apply Finset.sum_congr rfl
  intro j _
  simp only [densityTerm, KERNEL_RADIUS_SQR, pow_two]

/-- C4, amended. With KERNEL_RADIUS positive, for every particle i whose cell
GetCell(position) has 1 ≤ x ≤ GRID_WIDTH - 2 and 1 ≤ y ≤ GRID_HEIGHT - 2 (so that no cell of
its 3 x 3 ring is clamped), after ComputeDensityPressureMTBF the density of i is the sum,
over the particle indices j with squared distance r2(i, j) < KERNEL_RADIUS^2, each taken
once and i itself included, of PARTICLE_MASS * POLY6 * (KERNEL_RADIUS^2 - r2)^3. The window
dimensions are nonnegative and the neighbor buffer has a list for every particle, as main
sets it up. -/
theorem density_exact_sum_interior (c : Params K) (st : State K) (i : Nat)
    (hi : i < st.particles.length)
    (hR : 0 < c.KERNEL_RADIUS) (hW : 0 ≤ c.WINDOW_WIDTH) (hH : 0 ≤ c.WINDOW_HEIGHT)
    (hbuf : st.particles.length ≤ st.neighbor_buffer.length)
    (hx0 : 1 ≤ (GetCell c (particleAt st.particles i).position).x)
    (hx1 : (GetCell c (particleAt st.particles i).position).x ≤ GRID_WIDTH c - 2)
    (hy0 : 1 ≤ (GetCell c (particleAt st.particles i).position).y)
    (hy1 : (GetCell c (particleAt st.particles i).position).y ≤ GRID_HEIGHT c - 2) :
    (particleAt (ComputeDensityPressureMTBF c st).particles i).density
      = Finset.sum
          ((Finset.range st.particles.length).filter
            (fun j => r2 st.particles i j < c.KERNEL_RADIUS ^ 2))
          (fun j => c.PARTICLE_MASS * POLY6 c *
            (c.KERNEL_RADIUS ^ 2 - r2 st.particles i j) ^ 3) :=
  density_eq_sum_of_cell_interior c st i hi hR hW hH hbuf hx0 hx1 hy0 hy1

end exact_density

/-! ## The force pass -/

section forces

variable {K : Type} [LinearOrderedField K] [FloorRing K]

/-- One neighbor step adds nothing to the pressure and viscosity forces when the neighbor is
the particle itself, or when the two pressures cancel and the two velocities agree. -/
theorem forceStep_zero (c : Params K) (sqrt : K → K) (rnd : Nat → K) (ps : List (Particle K))
    (i : Nat) (pa : Particle K) (acc : ForceAcc K) (j : Nat)
    (h : j = i ∨ (pa.pressure + (particleAt ps j).pressure = 0 ∧
      (particleAt ps j).velocity = pa.velocity))
    (h1 : acc.pressure_force = ⟨0, 0⟩) (h2 : acc.viscosity_force = ⟨0, 0⟩) :
    (forceStep c sqrt rnd ps i pa acc j).pressure_force = ⟨0, 0⟩ ∧
    (forceStep c sqrt rnd ps i pa acc j).viscosity_force = ⟨0, 0⟩ := by
  unfold forceStep
  by_cases hij : i = j
  · rw [if_pos hij]; exact ⟨h1, h2⟩
  · rw [if_neg hij]
    rcases h with h | ⟨hp, hv⟩
    · exact absurd h.symm hij
    · simp only []
      split_ifs
      all_goals
        refine ⟨?_, ?_⟩
        all_goals first
          | exact h1
          | exact h2
          | (apply vec2_ext <;> simp [h1, h2, hp, hv])

theorem foldl_forceStep_zero (c : Params K) (sqrt : K → K) (rnd : Nat → K)
    (ps : List (Particle K)) (i : Nat) (pa : Particle K) (l : List Nat)
    (h : ∀ j ∈ l, j = i ∨ (pa.pressure + (particleAt ps j).pressure = 0 ∧
      (particleAt ps j).velocity = pa.velocity)) :
    ∀ acc : ForceAcc K, acc.pressure_force = ⟨0, 0⟩ → acc.viscosity_force = ⟨0, 0⟩ →
      (l.foldl (forceStep c sqrt rnd ps i pa) acc).pressure_force = ⟨0, 0⟩ ∧
      (l.foldl (forceStep c sqrt rnd ps i pa) acc).viscosity_force = ⟨0, 0⟩ := by
  induction l with
  | nil => intro acc h1 h2; exact ⟨h1, h2⟩
  | cons a l ih =>
    intro acc h1 h2
    rw [List.foldl_cons]
    have hs := forceStep_zero c sqrt rnd ps i pa acc a (h a (List.mem_cons_self _ _)) h1 h2
    exact ih (fun j hj => h j (List.mem_cons_of_mem _ hj)) _ hs.1 hs.2

/-- The force pass with the mouse button not held, when every listed neighbor of every
particle is the particle itself or has cancelling pressure and equal velocity: each particle
keeps everything but its force, which becomes the gravity term (0, GRAVITY) * PARTICLE_MASS /
density. -/
theorem ComputeForcesMTBF_gravity_only (c : Params K) (sqrt : K → K) (rnd : Nat → K)
    (input : Input K) (s0 : State K) (hmouse : input.mouse_pressing = false)
    (hn : ∀ i, i < s0.particles.length → ∀ j ∈ s0.neighbor_buffer.getD i [],
      j = i ∨ ((particleAt s0.particles i).pressure + (particleAt s0.particles j).pressure = 0 ∧
        (particleAt s0.particles j).velocity = (particleAt s0.particles i).velocity)) :
    (ComputeForcesMTBF c sqrt rnd input s0).particles.length = s0.particles.length ∧
    ∀ i, i < s0.particles.length →
      particleAt (ComputeForcesMTBF c sqrt rnd input s0).particles i =
        { particleAt s0.particles i with
          force := (⟨0, c.GRAVITY⟩ : vec2 K) * c.PARTICLE_MASS
            / (particleAt s0.particles i).density } := by
  have h := tbb_parallel_for_induct
    (fun k (s : State K) =>
      s.particles.length = s0.particles.length ∧
      s.neighbor_buffer = s0.neighbor_buffer ∧
      ∀ i, particleAt s.particles i =
        if i < k then
          { particleAt s0.particles i with
            force := (⟨0, c.GRAVITY⟩ : vec2 K) * c.PARTICLE_MASS
              / (particleAt s0.particles i).density }
        else particleAt s0.particles i)
    s0.particles.length (forcesBody c sqrt rnd input) s0
    ⟨rfl, rfl, fun i => by simp⟩
    (by
      intro k s hk ⟨hlen, hnb, hs⟩
      have hkp : k < s.particles.length := by omega
      have hak : particleAt s.particles k = particleAt s0.particles k := by
        rw [hs k, if_neg (lt_irrefl _)]
      have hpres : ∀ j, (particleAt s.particles j).pressure
          = (particleAt s0.particles j).pressure := by
        intro j; rw [hs j]; split_ifs <;> rfl
      have hvel : ∀ j, (particleAt s.particles j).velocity
          = (particleAt s0.particles j).velocity := by
        intro j; rw [hs j]; split_ifs <;> rfl
      have hz := foldl_forceStep_zero c sqrt rnd s.particles k (particleAt s.particles k)
        (s.neighbor_buffer.getD k [])
        (by
          intro j hj
          rw [hnb] at hj
          rw [hpres j, hvel j, hak]
          exact hn k hk j hj)
        ⟨⟨0, 0⟩, ⟨0, 0⟩, s.rng⟩ rfl rfl
      refine ⟨by simp [forcesBody, hlen], hnb, ?_⟩
      intro i
      by_cases hik : k = i
      · subst hik
        rw [if_pos (Nat.lt_succ_self _)]
        simp only [forcesBody]
        rw [particleAt_set_self _ _ _ hkp, hz.1, hz.2, hmouse, hak]
        simp only [Bool.false_eq_true, false_and, if_false]
        congr 1
        apply vec2_ext <;> simp
      · simp only [forcesBody]
        rw [particleAt_set_ne _ _ _ _ hik, hs i]
        by_cases h2 : i < k
        · rw [if_pos h2, if_pos (by omega)]
        · rw [if_neg h2, if_neg (by omega)])
  refine ⟨h.1, fun i hi => ?_⟩
  have := h.2.2 i
  rwa [if_pos hi] at this

end forces

/-! ## Scenarios: one particle, two particles at rest -/

section scenarios

variable {K : Type} [LinearOrderedField K] [FloorRing K]

/-- A coordinate at least one cell from the low edge and below the last cell has a cell
coordinate that is not on the border of a grid of g cells. -/
theorem cell_interior_of_coordinate (R x : K) (g : Int) (hR : 0 < R) (h0 : R ≤ x)
    (h1 : x < ((g - 1 : Int) : K) * R) : 1 ≤ toInt (x / R) ∧ toInt (x / R) ≤ g - 2 := by
  have hx : 0 ≤ x / R := div_nonneg (le_trans (le_of_lt hR) h0) (le_of_lt hR)
  unfold toInt
  rw [if_pos hx]
  constructor
  · rw [Int.le_floor]
    rw [le_div_iff₀ hR]
    simpa using h0
  · have : Int.floor (x / R) < g - 1 := by
      rw [Int.floor_lt, div_lt_iff₀ hR]
      exact h1
    omega

/-- C10, amended. A simulation holding a single particle at any position, the mouse button
not held. After the density and pressure pass its pressure is
GAS_CONSTANT * (density - REST_DENSITY) and its density is a whole multiple k ≥ 1 of the self
term PARTICLE_MASS * POLY6 * KERNEL_RADIUS^6, with k = 1 (the self term only) when
KERNEL_RADIUS ≤ x < (GRID_WIDTH - 1) * CELL_SIZE and KERNEL_RADIUS ≤ y <
(GRID_HEIGHT - 1) * CELL_SIZE, that is when its cell is not on the border of the grid. After
the force pass its force is the gravity term (0, GRAVITY) * PARTICLE_MASS / density. The
window dimensions are nonnegative and the neighbor buffer has a list for the particle, as
main sets it up. -/
theorem single_particle_density_pressure_force (c : Params K) (sqrt : K → K) (rnd : Nat → K)
    (input : Input K) (st : State K) (p : Particle K)
    (hst : st.particles = [p]) (hbuf : 1 ≤ st.neighbor_buffer.length)
    (hR : 0 < c.KERNEL_RADIUS) (hW : 0 ≤ c.WINDOW_WIDTH) (hH : 0 ≤ c.WINDOW_HEIGHT)
    (hmouse : input.mouse_pressing = false) :
    (∃ k : Nat, 1 ≤ k ∧
      (particleAt (ComputeDensityPressureMTBF c st).particles 0).density
        = (k : K) * (c.PARTICLE_MASS * POLY6 c * c.KERNEL_RADIUS ^ 6) ∧
      (c.KERNEL_RADIUS ≤ p.position.x →
        p.position.x < ((GRID_WIDTH c - 1 : Int) : K) * CELL_SIZE c →
        c.KERNEL_RADIUS ≤ p.position.y →
        p.position.y < ((GRID_HEIGHT c - 1 : Int) : K) * CELL_SIZE c → k = 1)) ∧
    (particleAt (ComputeDensityPressureMTBF c st).particles 0).pressure
      = c.GAS_CONSTANT *
        ((particleAt (ComputeDensityPressureMTBF c st).particles 0).density - c.REST_DENSITY) ∧
    (particleAt (ComputeForcesMTBF c sqrt rnd input
        (ComputeDensityPressureMTBF c st)).particles 0).force
      = (⟨0, c.GRAVITY⟩ : vec2 K) * c.PARTICLE_MASS
          / (particleAt (ComputeDensityPressureMTBF c st).particles 0).density := by
  have hlen : st.particles.length = 1 := by rw [hst]; rfl
  have hp : particleAt st.particles 0 = p := by rw [hst]; rfl
  have hb : st.particles.length ≤ st.neighbor_buffer.length := by omega
  have hspec := ComputeDensityPressureMTBF_spec c st hb
  have h0 := hspec.2.2.2.2 0 (by omega)
  have hall : ∀ j ∈ scanCells c st.particles (BuildGrid c st).grid
      (particleAt st.particles 0).position, j = 0 := by
    intro j hj
    have := mem_scan_lt c st _ j hR hW hH hj
    omega
  have hself : 0 ∈ scanCells c st.particles (BuildGrid c st).grid
      (particleAt st.particles 0).position :=
    scan_finds_neighbor c st 0 0 (by omega) hR hW hH (by
      rw [r2_self]; unfold KERNEL_RADIUS_SQR; exact mul_pos hR hR)
  have hrep := List.eq_replicate_of_mem hall
  refine ⟨⟨(scanCells c st.particles (BuildGrid c st).grid
      (particleAt st.particles 0).position).length, List.length_pos_of_mem hself, ?_, ?_⟩,
    ?_, ?_⟩
  · rw [h0.1]
    show ((scanCells c st.particles (BuildGrid c st).grid
      (particleAt st.particles 0).position).map (densityTerm c st.particles 0)).sum = _
    rw [hrep, List.map_replicate, List.sum_replicate, densityTerm_self, nsmul_eq_mul,
      List.length_replicate]
  · intro hx0 hx1 hy0 hy1
    have cx := cell_interior_of_coordinate c.KERNEL_RADIUS p.position.x (GRID_WIDTH c) hR
      hx0 hx1
    have cy := cell_interior_of_coordinate c.KERNEL_RADIUS p.position.y (GRID_HEIGHT c) hR
      hy0 hy1
    have hnd := scan_nodup_interior c st (particleAt st.particles 0).position hR hW hH
      (by rw [hp]; exact cx.1) (by rw [hp]; exact cx.2)
      (by rw [hp]; exact cy.1) (by rw [hp]; exact cy.2)
    rw [hrep, List.nodup_replicate] at hnd
    have := List.length_pos_of_mem hself
    omega
  · rw [h0.1]
  · have hf := ComputeForcesMTBF_gravity_only c sqrt rnd input (ComputeDensityPressureMTBF c st)
      hmouse (by
        intro i hi j hj
        rw [hspec.1] at hi
        have hi0 : i = 0 := by omega
        subst hi0
        rw [h0.2] at hj
        left; exact hall j hj)
    rw [hf.2 0 (by rw [hspec.1]; omega)]

/-- C9. Two particles at distance half the kernel radius, both inside the boundary margins,
with zero velocities, GRAVITY = 0, the mouse button not held and REST_DENSITY equal to the
density the density pass computes for each of them: after the density and force passes both
have pressure 0 and force (0, 0), and the full step UpdateMTBF leaves both positions and
both velocities as they were. -/
theorem two_particles_at_rest_stay_at_rest (c : Params K) (sqrt : K → K) (rnd : Nat → K)
    (input : Input K) (st : State K) (a b : Particle K)
    (hst : st.particles = [a, b]) (hbuf : 2 ≤ st.neighbor_buffer.length)
    (hR : 0 < c.KERNEL_RADIUS) (hG : c.GRAVITY = 0)
    (hmouse : input.mouse_pressing = false)
    (hva : a.velocity = ⟨0, 0⟩) (hvb : b.velocity = ⟨0, 0⟩)
    (_hdist : r2 st.particles 0 1 = (c.KERNEL_RADIUS / 2) * (c.KERNEL_RADIUS / 2))
    (hax : BOUNDARY_EPSILON c ≤ a.position.x ∧
      a.position.x ≤ (c.WINDOW_WIDTH : K) - BOUNDARY_EPSILON c)
    (hay : BOUNDARY_EPSILON c ≤ a.position.y ∧
      a.position.y ≤ (c.WINDOW_HEIGHT : K) - BOUNDARY_EPSILON c)
    (hbx : BOUNDARY_EPSILON c ≤ b.position.x ∧
      b.position.x ≤ (c.WINDOW_WIDTH : K) - BOUNDARY_EPSILON c)
    (hby : BOUNDARY_EPSILON c ≤ b.position.y ∧
      b.position.y ≤ (c.WINDOW_HEIGHT : K) - BOUNDARY_EPSILON c)
    (hrest0 : (particleAt (ComputeDensityPressureMTBF c st).particles 0).density
      = c.REST_DENSITY)
    (hrest1 : (particleAt (ComputeDensityPressureMTBF c st).particles 1).density
      = c.REST_DENSITY) :
    ∀ i, i < 2 →
      (particleAt (ComputeForcesMTBF c sqrt rnd input
        (ComputeDensityPressureMTBF c st)).particles i).pressure = 0 ∧
      (particleAt (ComputeForcesMTBF c sqrt rnd input
        (ComputeDensityPressureMTBF c st)).particles i).force = ⟨0, 0⟩ ∧
      (particleAt (UpdateMTBF c sqrt rnd input st).particles i).pressure = 0 ∧
      (particleAt (UpdateMTBF c sqrt rnd input st).particles i).force = ⟨0, 0⟩ ∧
      (particleAt (UpdateMTBF c sqrt rnd input st).particles i).position
        = (particleAt st.particles i).position ∧
      (particleAt (UpdateMTBF c sqrt rnd input st).particles i).velocity
        = (particleAt st.particles i).velocity := by
  have hlen : st.particles.length = 2 := by rw [hst]; rfl
  have hpa : particleAt st.particles 0 = a := by rw [hst]; rfl
  have hpb : particleAt st.particles 1 = b := by rw [hst]; rfl
  have hb : st.particles.length ≤ st.neighbor_buffer.length := by omega
  have hW : 0 ≤ c.WINDOW_WIDTH := by
    have : (0 : K) ≤ (c.WINDOW_WIDTH : K) := by unfold BOUNDARY_EPSILON at hax; linarith
    exact_mod_cast this
  have hH : 0 ≤ c.WINDOW_HEIGHT := by
    have : (0 : K) ≤ (c.WINDOW_HEIGHT : K) := by unfold BOUNDARY_EPSILON at hay; linarith
    exact_mod_cast this
  have hspec := ComputeDensityPressureMTBF_spec c st hb
  -- after the density pass: pressure 0, velocity 0 for both
  have hvel : ∀ i, i < 2 →
      (particleAt (ComputeDensityPressureMTBF c st).particles i).velocity = ⟨0, 0⟩ := by
    intro i hi
    rw [(hspec.2.2.2.2 i (by omega)).1]
    have : i = 0 ∨ i = 1 := by omega
    rcases this with rfl | rfl
    · show (particleAt st.particles 0).velocity = _; rw [hpa, hva]
    · show (particleAt st.particles 1).velocity = _; rw [hpb, hvb]
  have hpos : ∀ i, i < 2 →
      (particleAt (ComputeDensityPressureMTBF c st).particles i).position
        = (particleAt st.particles i).position := by
    intro i hi
    rw [(hspec.2.2.2.2 i (by omega)).1]
  have hdens : ∀ i, i < 2 →
      (particleAt (ComputeDensityPressureMTBF c st).particles i).density = c.REST_DENSITY := by
    intro i hi
    have : i = 0 ∨ i = 1 := by omega
    rcases this with rfl | rfl
    · exact hrest0
    · exact hrest1
  have hpres : ∀ i, i < 2 →
      (particleAt (ComputeDensityPressureMTBF c st).particles i).pressure = 0 := by
    intro i hi
    have hd := hdens i hi
    rw [(hspec.2.2.2.2 i (by omega)).1] at hd ⊢
    simp only [] at hd ⊢
    rw [hd, sub_self, mul_zero]
  have hf := ComputeForcesMTBF_gravity_only c sqrt rnd input (ComputeDensityPressureMTBF c st)
    hmouse (by
      intro i hi j hj
      rw [hspec.1, hlen] at hi
      rw [(hspec.2.2.2.2 i (by omega)).2] at hj
      have hj2 : j < 2 := by
        have := mem_scan_lt c st _ j hR hW hH hj
        omega
      right
      rw [hpres i hi, hpres j hj2, hvel i hi, hvel j hj2]
      exact ⟨add_zero 0, rfl⟩)
  have hforce : ∀ i, i < 2 →
      particleAt (ComputeForcesMTBF c sqrt rnd input
        (ComputeDensityPressureMTBF c st)).particles i
      = { particleAt (ComputeDensityPressureMTBF c st).particles i with force := ⟨0, 0⟩ } := by
    intro i hi
    have hg : (⟨0, c.GRAVITY⟩ : vec2 K) * c.PARTICLE_MASS
        / (particleAt (ComputeDensityPressureMTBF c st).particles i).density = ⟨0, 0⟩ := by
      apply vec2_ext <;> simp [hG]
    rw [hf.2 i (by rw [hspec.1]; omega), hg]
  have hint := IntegrateMTBF_spec c (ComputeForcesMTBF c sqrt rnd input
    (ComputeDensityPressureMTBF c st))
  have hmargin : ∀ i, i < 2 →
      (BOUNDARY_EPSILON c ≤ (particleAt st.particles i).position.x ∧
        (particleAt st.particles i).position.x ≤ (c.WINDOW_WIDTH : K) - BOUNDARY_EPSILON c) ∧
      (BOUNDARY_EPSILON c ≤ (particleAt st.particles i).position.y ∧
        (particleAt st.particles i).position.y
          ≤ (c.WINDOW_HEIGHT : K) - BOUNDARY_EPSILON c) := by
    intro i hi
    have : i = 0 ∨ i = 1 := by omega
    rcases this with rfl | rfl
    · rw [hpa]; exact ⟨hax, hay⟩
    · rw [hpb]; exact ⟨hbx, hby⟩
  intro i hi
  have hupd : particleAt (UpdateMTBF c sqrt rnd input st).particles i
      = integrateParticle c { particleAt (ComputeDensityPressureMTBF c st).particles i with
          force := ⟨0, 0⟩ } := by
    unfold UpdateMTBF
    rw [hint.2 i (by rw [hf.1, hspec.1]; omega), hforce i hi]
  have hm := hmargin i hi
  rw [← hpos i hi] at hm
  have hvst : (particleAt st.particles i).velocity = ⟨0, 0⟩ := by
    have : i = 0 ∨ i = 1 := by omega
    rcases this with rfl | rfl
    · rw [hpa, hva]
    · rw [hpb, hvb]
  have hv0 := hvel i hi
  have hx0 : ¬ ((particleAt (ComputeDensityPressureMTBF c st).particles i).position.x
      - BOUNDARY_EPSILON c < 0) := by linarith [hm.1.1]
  have hx1 : ¬ ((particleAt (ComputeDensityPressureMTBF c st).particles i).position.x
      + BOUNDARY_EPSILON c > (c.WINDOW_WIDTH : K)) := by linarith [hm.1.2]
  have hy0 : ¬ ((particleAt (ComputeDensityPressureMTBF c st).particles i).position.y
      - BOUNDARY_EPSILON c < 0) := by linarith [hm.2.1]
  have hy1 : ¬ ((particleAt (ComputeDensityPressureMTBF c st).particles i).position.y
      + BOUNDARY_EPSILON c > (c.WINDOW_HEIGHT : K)) := by linarith [hm.2.2]
  rw [hupd, hforce i hi]
  refine ⟨hpres i hi, rfl, hpres i hi, rfl, ?_, ?_⟩
  · rw [← hpos i hi]
    apply vec2_ext <;>
      simp [integrateParticle, hv0, hx0, hx1, hy0, hy1]
  · rw [hvst]
    apply vec2_ext <;>
      simp [integrateParticle, hv0, hx0, hx1, hy0, hy1]

end scenarios

/-! ## SpawnParticles -/

section spawn

variable {K : Type} [LinearOrderedField K] [FloorRing K]

theorem Appended_refl (c : Params K) (st : State K) : Appended c st st :=
  ⟨[], by simp, Or.inl rfl⟩

theorem Appended_trans (c : Params K) (s1 s2 s3 : State K) (h12 : Appended c s1 s2)
    (h23 : Appended c s2 s3) : Appended c s1 s3 := by
  obtain ⟨a1, e1, b1⟩ := h12
  obtain ⟨a2, e2, b2⟩ := h23
  refine ⟨a1 ++ a2, by rw [e2, e1, List.append_assoc], ?_⟩
  rcases b2 with rfl | b2
  · rcases b1 with rfl | b1
    · left; rfl
    · right; rw [e2, List.append_nil]; exact b1
  · right; exact b2

/-- One more iteration fits: the number of remaining iterations drops by one. -/
theorem floor_step (s hi x : K) (hs : 0 < s) (h : x + s ≤ hi) :
    Nat.floor ((hi - (x + s)) / s) + 1 ≤ Nat.floor ((hi - x) / s) := by
  apply Nat.le_floor
  have h0 : 0 ≤ (hi - (x + s)) / s := div_nonneg (by linarith) (le_of_lt hs)
  have h1 := Nat.floor_le h0
  have h2 : (hi - x) / s = (hi - (x + s)) / s + 1 := by
    field_simp
    ring
  rw [h2]
  push_cast
  linarith

/-- The inner loop of SpawnParticles returns once its fuel covers the remaining iterations,
and only appends. -/
theorem spawnRow_spec (c : Params K) (sqrt : K → K) (rnd : Nat → K) (center : vec2 K)
    (radius spacing y : K) (hs : 0 < spacing) (hmax : 0 ≤ c.MAX_PARTICLES) :
    ∀ (fuel : Nat) (x : K) (st : State K), 1 ≤ fuel →
      (x ≤ center.x + radius → Nat.floor ((center.x + radius - x) / spacing) + 2 ≤ fuel) →
      ∃ st1, spawnRow c sqrt rnd center radius spacing y fuel x st = some st1 ∧
        Appended c st st1 := by
  intro fuel
  induction fuel with
  | zero => intro x st h1; omega
  | succ fuel ih =>
    intro x st _ hf
    unfold spawnRow
    by_cases hx : x ≤ center.x + radius
    · rw [if_pos hx]
      have hf1 := hf hx
      have hrec : ∀ st1 : State K, Appended c st st1 →
          ∃ st2, spawnRow c sqrt rnd center radius spacing y fuel (x + spacing) st1 = some st2 ∧
            Appended c st st2 := by
        intro st1 h1
        obtain ⟨st2, e2, a2⟩ := ih (x + spacing) st1 (by omega) (by
          intro hx2
          have := floor_step spacing (center.x + radius) x hs hx2
          omega)
        exact ⟨st2, e2, Appended_trans c _ _ _ h1 a2⟩
      simp only []
      split_ifs with hpush
      · apply hrec
        refine ⟨[_], rfl, Or.inr ?_⟩
        have hlt := hpush.2
        have hmod : c.MAX_PARTICLES % 2 ^ 64 ≤ c.MAX_PARTICLES := by omega
        simp only [List.length_append, List.length_singleton]
        push_cast
        omega
      · apply hrec
        exact ⟨[], by simp, Or.inl rfl⟩
    · rw [if_neg hx]
      exact ⟨st, rfl, Appended_refl c st⟩

/-- The outer loop of SpawnParticles returns once its fuel covers the remaining rows and the
row fuel covers a row, and only appends. -/
theorem spawnRows_spec (c : Params K) (sqrt : K → K) (rnd : Nat → K) (center : vec2 K)
    (radius spacing : K) (rowFuel : Nat) (hs : 0 < spacing) (hmax : 0 ≤ c.MAX_PARTICLES)
    (hrow : Nat.floor ((center.x + radius - (center.x - radius)) / spacing) + 2 ≤ rowFuel) :
    ∀ (fuel : Nat) (y : K) (st : State K), 1 ≤ fuel →
      (y ≤ center.y + radius → Nat.floor ((center.y + radius - y) / spacing) + 2 ≤ fuel) →
      ∃ st1, spawnRows c sqrt rnd center radius spacing rowFuel fuel y st = some st1 ∧
        Appended c st st1 := by
  intro fuel
  induction fuel with
  | zero => intro y st h1; omega
  | succ fuel ih =>
    intro y st _ hf
    unfold spawnRows
    by_cases hy : y ≤ center.y + radius
    · rw [if_pos hy]
      have hf1 := hf hy
      obtain ⟨st1, e1, a1⟩ := spawnRow_spec c sqrt rnd center radius spacing y hs hmax rowFuel
        (center.x - radius) st (by omega) (fun _ => hrow)
      rw [e1]
      simp only []
      obtain ⟨st2, e2, a2⟩ := ih (y + spacing) st1 (by omega) (by
        intro hy2
        have := floor_step spacing (center.y + radius) y hs hy2
        omega)
      exact ⟨st2, e2, Appended_trans c _ _ _ a1 a2⟩
    · rw [if_neg hy]
      exact ⟨st, rfl, Appended_refl c st⟩

/-- C7. With the spacing KERNEL_RADIUS positive and the particle count at most
MAX_PARTICLES, SpawnParticles returns (given fuel for the floor(320 / KERNEL_RADIUS) + 1
iterations of each loop plus the final test), whatever the random values: it only appends,
so the particles present before stay unchanged at their indices; the resulting count is at
most MAX_PARTICLES; and when the count already is MAX_PARTICLES the sequence is unchanged. -/
theorem SpawnParticles_only_appends_up_to_capacity (c : Params K) (sqrt : K → K)
    (rnd : Nat → K) (fuel : Nat) (st : State K)
    (hR : 0 < c.KERNEL_RADIUS)
    (hsize : (st.particles.length : Int) ≤ c.MAX_PARTICLES)
    (hfuel : Nat.floor (320 / c.KERNEL_RADIUS) + 2 ≤ fuel) :
    ∃ st1, SpawnParticles c sqrt rnd fuel st = some st1 ∧
      (∃ added, st1.particles = st.particles ++ added) ∧
      (∀ i, i < st.particles.length → particleAt st1.particles i = particleAt st.particles i) ∧
      (st1.particles.length : Int) ≤ c.MAX_PARTICLES ∧
      ((st.particles.length : Int) = c.MAX_PARTICLES → st1.particles = st.particles) := by
  have hmax : 0 ≤ c.MAX_PARTICLES := le_trans (Int.ofNat_nonneg _) hsize
  have e320 : ∀ z : K, z + 160 - (z - 160) = 320 := by intro z; ring
  obtain ⟨st1, e1, added, ea, hb⟩ := spawnRows_spec c sqrt rnd
    ⟨((Int.tdiv c.WINDOW_WIDTH 2 : Int) : K), ((Int.tdiv c.WINDOW_HEIGHT 2 : Int) : K)⟩
    160 c.KERNEL_RADIUS fuel hR hmax (by rw [e320]; exact hfuel) fuel
    (((Int.tdiv c.WINDOW_HEIGHT 2 : Int) : K) - 160) st (by omega)
    (by intro _; rw [e320]; exact hfuel)
  refine ⟨st1, e1, ⟨added, ea⟩, ?_, ?_, ?_⟩
  · intro i hi
    simp only [particleAt, List.getD_eq_getElem?_getD]
    rw [ea, List.getElem?_append_left hi]
  · rcases hb with rfl | hb
    · rw [ea, List.append_nil]; exact hsize
    · exact hb
  · intro hfull
    rcases hb with rfl | hb
    · rw [ea, List.append_nil]
    · rw [ea, List.length_append] at hb
      push_cast at hb
      have : added.length = 0 := by omega
      rw [ea, List.length_eq_zero.mp this, List.append_nil]

end spawn

/-! ## The constants of main.cpp -/

section concrete

theorem exampleParams_grid : GRID_WIDTH exampleParams = 88 ∧ GRID_HEIGHT exampleParams = 51 := by
  have h1 : toInt ((1400 : ℚ) / 16) = 87 := by
    unfold toInt
    rw [if_pos (by norm_num), Int.floor_eq_iff]
    norm_num
  have h2 : toInt ((800 : ℚ) / 16) = 50 := by
    unfold toInt
    rw [if_pos (by norm_num), Int.floor_eq_iff]
    norm_num
  constructor
  · show toInt (((1400 : Int) : ℚ) / 16) + 1 = 88
    rw [show (((1400 : Int) : ℚ)) = 1400 by norm_num, h1]; rfl
  · show toInt (((800 : Int) : ℚ) / 16) + 1 = 51
    rw [show (((800 : Int) : ℚ)) = 800 by norm_num, h2]; rfl

theorem exampleParams_poly6_pos : 0 < POLY6 exampleParams := by
  unfold POLY6 exampleParams programParams
  norm_num

end concrete

/-! ## The claims at concrete inputs -/

section witnesses

theorem exampleParams_radius_pos : 0 < exampleParams.KERNEL_RADIUS := by
  norm_num [exampleParams, programParams]

theorem toInt_half : toInt ((8 : ℚ) / 16) = 0 := by
  unfold toInt
  rw [if_pos (by norm_num), Int.floor_eq_iff]
  norm_num

theorem cornerState_cell : GetCell exampleParams (particleAt cornerState.particles 0).position
    = ⟨0, 0⟩ := by
  show (⟨toInt ((8 : ℚ) / 16), toInt ((8 : ℚ) / 16)⟩ : ivec2) = ⟨0, 0⟩
  rw [toInt_half]

theorem cornerState_slot : slotOf exampleParams (particleAt cornerState.particles 0).position
    = 0 := by
  unfold slotOf
  rw [cornerState_cell, exampleParams_grid.1, exampleParams_grid.2]
  simp only [GetCellIndex, exampleParams_grid.1]
  decide

theorem cornerState_grid (k : Nat) (hk : k < 88 * 51) :
    (BuildGrid exampleParams cornerState).grid.getD k [] = if k = 0 then [0] else [] := by
  have h := (BuildGrid_grid exampleParams cornerState
    (by rw [exampleParams_grid.1]; decide) (by rw [exampleParams_grid.2]; decide)).2 k
    (by rw [exampleParams_grid.1, exampleParams_grid.2]; exact hk)
  rw [h]
  show List.filter _ (List.range 1) = _
  have hr : List.range 1 = [0] := by decide
  rw [hr]
  simp only [List.filter_cons, List.filter_nil, cornerState_slot]
  by_cases h0 : k = 0
  · subst h0; simp
  · have : ¬ (0 = k) := fun e => h0 e.symm
    simp [h0, this]

theorem cornerState_scan :
    scanCells exampleParams cornerState.particles (BuildGrid exampleParams cornerState).grid
      (particleAt cornerState.particles 0).position = [0, 0, 0, 0] := by
  rw [scanCells_eq _ _ _ _ (ne_of_gt exampleParams_radius_pos), cornerState_cell]
  simp only [exampleParams_grid.1, exampleParams_grid.2, GetCellIndex, List.flatMap_cons,
    List.flatMap_nil, List.append_nil]
  have c1 : clamp (0 + -1) 0 (88 - 1) = 0 := by decide
  have c2 : clamp (0 + 0) 0 (88 - 1) = 0 := by decide
  have c3 : clamp (0 + 1) 0 (88 - 1) = 1 := by decide
  have d1 : clamp (0 + -1) 0 (51 - 1) = 0 := by decide
  have d2 : clamp (0 + 0) 0 (51 - 1) = 0 := by decide
  have d3 : clamp (0 + 1) 0 (51 - 1) = 1 := by decide
  rw [c1, c2, c3, d1, d2, d3]
  have e0 : ((0 : Int) * 88 + 0).toNat = 0 := by decide
  have e1 : ((0 : Int) * 88 + 1).toNat = 1 := by decide
  have e2 : ((1 : Int) * 88 + 0).toNat = 88 := by decide
  have e3 : ((1 : Int) * 88 + 1).toNat = 89 := by decide
  rw [e0, e1, e2, e3, cornerState_grid 0 (by decide), cornerState_grid 1 (by decide),
    cornerState_grid 88 (by decide), cornerState_grid 89 (by decide)]
  have ht : dot ((particleAt cornerState.particles 0).position
      - (particleAt cornerState.particles 0).position)
      ((particleAt cornerState.particles 0).position
      - (particleAt cornerState.particles 0).position) < KERNEL_RADIUS_SQR exampleParams := by
    norm_num [dot, KERNEL_RADIUS_SQR, exampleParams, programParams]
  simp [ht]

/-- C1, witness: the range [0, 17) on 4 workers. -/
theorem parallel_for_invokes_each_index_once_witness :
    (1 : Int) ≤ 4 ∧
    ∃ jobs, parallel_for 0 17 4 = some jobs ∧
      (∀ k : Int, (jobs.map (fun job => (invocations job).count k)).sum
          = if 0 ≤ k ∧ k < 17 then 1 else 0) ∧
      ((17 : Int) ≤ 0 → jobs = []) :=
  ⟨by decide, parallel_for_invokes_each_index_once 0 17 4 (by decide)⟩

/-- C2, witness: a particle that the step would carry below the lower margin. -/
theorem integrate_boundary_containment_witness :
    (0 < fallingState.particles.length ∧
      2 * BOUNDARY_EPSILON exampleParams ≤ (exampleParams.WINDOW_WIDTH : ℚ) ∧
      2 * BOUNDARY_EPSILON exampleParams ≤ (exampleParams.WINDOW_HEIGHT : ℚ)) ∧
    (BOUNDARY_EPSILON exampleParams
        ≤ (particleAt (IntegrateMTBF exampleParams fallingState).particles 0).position.x ∧
      (particleAt (IntegrateMTBF exampleParams fallingState).particles 0).position.x
        ≤ (exampleParams.WINDOW_WIDTH : ℚ) - BOUNDARY_EPSILON exampleParams ∧
      BOUNDARY_EPSILON exampleParams
        ≤ (particleAt (IntegrateMTBF exampleParams fallingState).particles 0).position.y ∧
      (particleAt (IntegrateMTBF exampleParams fallingState).particles 0).position.y
        ≤ (exampleParams.WINDOW_HEIGHT : ℚ) - BOUNDARY_EPSILON exampleParams) :=
  ⟨⟨by decide, by norm_num [BOUNDARY_EPSILON, exampleParams, programParams],
      by norm_num [BOUNDARY_EPSILON, exampleParams, programParams]⟩,
    integrate_boundary_containment exampleParams fallingState 0 (by decide)
      (by norm_num [BOUNDARY_EPSILON, exampleParams, programParams])
      (by norm_num [BOUNDARY_EPSILON, exampleParams, programParams])⟩

theorem exampleParams_grid_pos : 1 ≤ GRID_WIDTH exampleParams ∧ 1 ≤ GRID_HEIGHT exampleParams :=
  ⟨by rw [exampleParams_grid.1]; decide, by rw [exampleParams_grid.2]; decide⟩

/-- C6, witness: the constants of main.cpp and two particles. -/
theorem BuildGrid_each_index_in_its_cell_once_witness :
    (1 ≤ GRID_WIDTH exampleParams ∧ 1 ≤ GRID_HEIGHT exampleParams) ∧
    ((BuildGrid exampleParams pairState).grid.length
        = (GRID_WIDTH exampleParams * GRID_HEIGHT exampleParams).toNat ∧
      (∀ i, i < pairState.particles.length →
        0 ≤ clamp (Int.floor ((particleAt pairState.particles i).position.y
                / CELL_SIZE exampleParams)) 0 (GRID_HEIGHT exampleParams - 1)
              * GRID_WIDTH exampleParams
            + clamp (Int.floor ((particleAt pairState.particles i).position.x
                / CELL_SIZE exampleParams)) 0 (GRID_WIDTH exampleParams - 1) ∧
        clamp (Int.floor ((particleAt pairState.particles i).position.y
                / CELL_SIZE exampleParams)) 0 (GRID_HEIGHT exampleParams - 1)
              * GRID_WIDTH exampleParams
            + clamp (Int.floor ((particleAt pairState.particles i).position.x
                / CELL_SIZE exampleParams)) 0 (GRID_WIDTH exampleParams - 1)
          < GRID_WIDTH exampleParams * GRID_HEIGHT exampleParams) ∧
      ∀ (k i : Nat), k < (BuildGrid exampleParams pairState).grid.length →
        ((BuildGrid exampleParams pairState).grid.getD k []).count i
          = if i < pairState.particles.length ∧
              (k : Int) = clamp (Int.floor ((particleAt pairState.particles i).position.y
                    / CELL_SIZE exampleParams)) 0 (GRID_HEIGHT exampleParams - 1)
                  * GRID_WIDTH exampleParams
                + clamp (Int.floor ((particleAt pairState.particles i).position.x
                    / CELL_SIZE exampleParams)) 0 (GRID_WIDTH exampleParams - 1)
            then 1 else 0) :=
  ⟨exampleParams_grid_pos,
    BuildGrid_each_index_in_its_cell_once exampleParams pairState exampleParams_grid_pos.1
      exampleParams_grid_pos.2⟩

theorem pairState_buffer : pairState.particles.length ≤ pairState.neighbor_buffer.length := by
  show 2 ≤ (List.replicate 4000 ([] : List Nat)).length
  rw [List.length_replicate]
  decide

theorem exampleParams_window :
    (0 : Int) ≤ exampleParams.WINDOW_WIDTH ∧ (0 : Int) ≤ exampleParams.WINDOW_HEIGHT := by
  constructor <;> decide


/-- C5, witness: the constants of main.cpp and two particles. -/
theorem density_at_least_self_term_witness :
    ((0 : Nat) < pairState.particles.length ∧ 0 < exampleParams.KERNEL_RADIUS ∧
      0 ≤ exampleParams.PARTICLE_MASS ∧ 0 ≤ POLY6 exampleParams ∧
      (0 : Int) ≤ exampleParams.WINDOW_WIDTH ∧ (0 : Int) ≤ exampleParams.WINDOW_HEIGHT ∧
      pairState.particles.length ≤ pairState.neighbor_buffer.length) ∧
    (exampleParams.PARTICLE_MASS * POLY6 exampleParams * exampleParams.KERNEL_RADIUS ^ 6
        ≤ (particleAt (ComputeDensityPressureMTBF exampleParams pairState).particles 0).density ∧
      0 ≤ (particleAt (ComputeDensityPressureMTBF exampleParams pairState).particles 0).density) :=
  ⟨⟨by decide, exampleParams_radius_pos, by norm_num [exampleParams, programParams],
      le_of_lt exampleParams_poly6_pos, exampleParams_window.1, exampleParams_window.2,
      pairState_buffer⟩,
    density_at_least_self_term exampleParams pairState 0 (by decide) exampleParams_radius_pos
      (by norm_num [exampleParams, programParams]) (le_of_lt exampleParams_poly6_pos)
      exampleParams_window.1 exampleParams_window.2 pairState_buffer⟩

/-- C7, witness: spawning on top of two particles with fuel 22. -/
theorem SpawnParticles_only_appends_up_to_capacity_witness :
    (0 < exampleParams.KERNEL_RADIUS ∧
      (pairState.particles.length : Int) ≤ exampleParams.MAX_PARTICLES ∧
      Nat.floor (320 / exampleParams.KERNEL_RADIUS) + 2 ≤ 22) ∧
    ∃ st1, SpawnParticles exampleParams (fun x => x) (fun _ => 1 / 2) 22 pairState = some st1 ∧
      (∃ added, st1.particles = pairState.particles ++ added) ∧
      (∀ i, i < pairState.particles.length →
        particleAt st1.particles i = particleAt pairState.particles i) ∧
      (st1.particles.length : Int) ≤ exampleParams.MAX_PARTICLES ∧
      ((pairState.particles.length : Int) = exampleParams.MAX_PARTICLES →
        st1.particles = pairState.particles) :=
  ⟨⟨exampleParams_radius_pos, by decide, by norm_num [exampleParams, programParams]⟩,
    SpawnParticles_only_appends_up_to_capacity exampleParams (fun x => x) (fun _ => 1 / 2) 22
      pairState exampleParams_radius_pos (by decide)
      (by norm_num [exampleParams, programParams])⟩

theorem cornerState_buffer :
    cornerState.particles.length ≤ cornerState.neighbor_buffer.length := by
  show 1 ≤ (List.replicate 4000 ([] : List Nat)).length
  rw [List.length_replicate]
  decide

/-- The particle in the corner cell: its own cell is scanned four times, so the density
pass counts its self term four times. -/
theorem cornerState_density :
    (particleAt (ComputeDensityPressureMTBF exampleParams cornerState).particles 0).density
      = 4 * (exampleParams.PARTICLE_MASS * POLY6 exampleParams
          * exampleParams.KERNEL_RADIUS ^ 6) := by
  rw [((ComputeDensityPressureMTBF_spec exampleParams cornerState cornerState_buffer).2.2.2.2 0
    (by decide)).1]
  show ((scanCells exampleParams cornerState.particles (BuildGrid exampleParams cornerState).grid
      (particleAt cornerState.particles 0).position).map
        (densityTerm exampleParams cornerState.particles 0)).sum = _
  rw [cornerState_scan]
  simp only [List.map_cons, List.map_nil, List.sum_cons, List.sum_nil, densityTerm_self]
  ring

theorem exampleParams_self_term_pos :
    0 < exampleParams.PARTICLE_MASS * POLY6 exampleParams * exampleParams.KERNEL_RADIUS ^ 6 := by
  have h := exampleParams_poly6_pos
  have hm : (0 : ℚ) < exampleParams.PARTICLE_MASS := by norm_num [exampleParams, programParams]
  exact mul_pos (mul_pos hm h) (pow_pos exampleParams_radius_pos 6)

/-- C4, counterexample. One particle at (8, 8) with the constants of main.cpp: the density the
density pass computes is not the sum of the density term over the particles within the
kernel radius taken once each (it is four times that sum). -/
theorem density_sum_fails_in_corner_cell :
    (0 < cornerState.particles.length) ∧
    (particleAt (ComputeDensityPressureMTBF exampleParams cornerState).particles 0).density
      ≠ Finset.sum
          ((Finset.range cornerState.particles.length).filter
            (fun j => r2 cornerState.particles 0 j < exampleParams.KERNEL_RADIUS ^ 2))
          (fun j => exampleParams.PARTICLE_MASS * POLY6 exampleParams *
            (exampleParams.KERNEL_RADIUS ^ 2 - r2 cornerState.particles 0 j) ^ 3) := by
  refine ⟨by decide, ?_⟩
  have hf : (Finset.range cornerState.particles.length).filter
      (fun j => r2 cornerState.particles 0 j < exampleParams.KERNEL_RADIUS ^ 2) = {0} := by
    show (Finset.range 1).filter _ = _
    ext j
    simp only [Finset.mem_filter, Finset.mem_range, Finset.mem_singleton]
    constructor
    · rintro ⟨h, _⟩; omega
    · rintro rfl
      exact ⟨by omega, by rw [r2_self]; exact pow_pos exampleParams_radius_pos 2⟩
  rw [hf, Finset.sum_singleton, r2_self, sub_zero, ← pow_mul, cornerState_density]
  have := exampleParams_self_term_pos
  intro h
  norm_num only at h
  linarith

/-- C10, counterexample. A single particle at (8, 8), inside the bounds [0, WINDOW_WIDTH] x
[0, WINDOW_HEIGHT]: after the density pass its density is not the self term
PARTICLE_MASS * POLY6 * KERNEL_RADIUS^6 (it is four times the self term). -/
theorem single_particle_density_fails_in_corner_cell :
    cornerState.particles = [CreateParticle 8 8] ∧
    ((0 : ℚ) ≤ (CreateParticle (8 : ℚ) 8).position.x ∧
      (CreateParticle (8 : ℚ) 8).position.x ≤ (exampleParams.WINDOW_WIDTH : ℚ) ∧
      (0 : ℚ) ≤ (CreateParticle (8 : ℚ) 8).position.y ∧
      (CreateParticle (8 : ℚ) 8).position.y ≤ (exampleParams.WINDOW_HEIGHT : ℚ)) ∧
    (particleAt (ComputeDensityPressureMTBF exampleParams cornerState).particles 0).density
      ≠ exampleParams.PARTICLE_MASS * POLY6 exampleParams * exampleParams.KERNEL_RADIUS ^ 6 := by
  refine ⟨rfl, by norm_num [CreateParticle, exampleParams, programParams], ?_⟩
  rw [cornerState_density]
  have := exampleParams_self_term_pos
  intro h
  linarith

theorem pairState_cells (c : Params ℚ) (hR : c.KERNEL_RADIUS = 16) (hW : GRID_WIDTH c = 88)
    (hH : GRID_HEIGHT c = 51) (i : Nat) (hi : i < 2) :
    1 ≤ (GetCell c (particleAt pairState.particles i).position).x ∧
    (GetCell c (particleAt pairState.particles i).position).x ≤ GRID_WIDTH c - 2 ∧
    1 ≤ (GetCell c (particleAt pairState.particles i).position).y ∧
    (GetCell c (particleAt pairState.particles i).position).y ≤ GRID_HEIGHT c - 2 := by
  have hi2 : i = 0 ∨ i = 1 := by omega
  rcases hi2 with rfl | rfl
  · have hx := cell_interior_of_coordinate c.KERNEL_RADIUS (100 : ℚ) (GRID_WIDTH c)
      (by rw [hR]; norm_num) (by rw [hR]; norm_num) (by rw [hR, hW]; norm_num)
    have hy := cell_interior_of_coordinate c.KERNEL_RADIUS (100 : ℚ) (GRID_HEIGHT c)
      (by rw [hR]; norm_num) (by rw [hR]; norm_num) (by rw [hR, hH]; norm_num)
    exact ⟨hx.1, hx.2, hy.1, hy.2⟩
  · have hx := cell_interior_of_coordinate c.KERNEL_RADIUS (108 : ℚ) (GRID_WIDTH c)
      (by rw [hR]; norm_num) (by rw [hR]; norm_num) (by rw [hR, hW]; norm_num)
    have hy := cell_interior_of_coordinate c.KERNEL_RADIUS (100 : ℚ) (GRID_HEIGHT c)
      (by rw [hR]; norm_num) (by rw [hR]; norm_num) (by rw [hR, hH]; norm_num)
    exact ⟨hx.1, hx.2, hy.1, hy.2⟩

/-- C4, witness: the first of two particles in the middle of the window. -/
theorem density_exact_sum_interior_witness :
    ((0 : Nat) < pairState.particles.length ∧ 0 < exampleParams.KERNEL_RADIUS ∧
      (0 : Int) ≤ exampleParams.WINDOW_WIDTH ∧ (0 : Int) ≤ exampleParams.WINDOW_HEIGHT ∧
      pairState.particles.length ≤ pairState.neighbor_buffer.length ∧
      1 ≤ (GetCell exampleParams (particleAt pairState.particles 0).position).x ∧
      (GetCell exampleParams (particleAt pairState.particles 0).position).x
        ≤ GRID_WIDTH exampleParams - 2 ∧
      1 ≤ (GetCell exampleParams (particleAt pairState.particles 0).position).y ∧
      (GetCell exampleParams (particleAt pairState.particles 0).position).y
        ≤ GRID_HEIGHT exampleParams - 2) ∧
    (particleAt (ComputeDensityPressureMTBF exampleParams pairState).particles 0).density
      = Finset.sum
          ((Finset.range pairState.particles.length).filter
            (fun j => r2 pairState.particles 0 j < exampleParams.KERNEL_RADIUS ^ 2))
          (fun j => exampleParams.PARTICLE_MASS * POLY6 exampleParams *
            (exampleParams.KERNEL_RADIUS ^ 2 - r2 pairState.particles 0 j) ^ 3) :=
  ⟨⟨by decide, exampleParams_radius_pos, exampleParams_window.1, exampleParams_window.2,
      pairState_buffer,
      pairState_cells exampleParams rfl exampleParams_grid.1 exampleParams_grid.2 0 (by decide)⟩,
    density_exact_sum_interior exampleParams pairState 0 (by decide) exampleParams_radius_pos
      exampleParams_window.1 exampleParams_window.2 pairState_buffer
      (pairState_cells exampleParams rfl exampleParams_grid.1 exampleParams_grid.2 0
        (by decide)).1
      (pairState_cells exampleParams rfl exampleParams_grid.1 exampleParams_grid.2 0
        (by decide)).2.1
      (pairState_cells exampleParams rfl exampleParams_grid.1 exampleParams_grid.2 0
        (by decide)).2.2.1
      (pairState_cells exampleParams rfl exampleParams_grid.1 exampleParams_grid.2 0
        (by decide)).2.2.2⟩

theorem singleState_buffer : 1 ≤ singleState.neighbor_buffer.length := by
  show 1 ≤ (List.replicate 4000 ([] : List Nat)).length
  rw [List.length_replicate]
  decide

theorem singleState_position :
    exampleParams.KERNEL_RADIUS ≤ (CreateParticle (700 : ℚ) 400).position.x ∧
    (CreateParticle (700 : ℚ) 400).position.x
      < ((GRID_WIDTH exampleParams - 1 : Int) : ℚ) * CELL_SIZE exampleParams ∧
    exampleParams.KERNEL_RADIUS ≤ (CreateParticle (700 : ℚ) 400).position.y ∧
    (CreateParticle (700 : ℚ) 400).position.y
      < ((GRID_HEIGHT exampleParams - 1 : Int) : ℚ) * CELL_SIZE exampleParams := by
  rw [exampleParams_grid.1, exampleParams_grid.2]
  norm_num [CreateParticle, CELL_SIZE, exampleParams, programParams]

/-- C10, witness: one particle in the middle of the window, where the density is the self
term only. -/
theorem single_particle_density_pressure_force_witness :
    (singleState.particles = [CreateParticle 700 400] ∧
      1 ≤ singleState.neighbor_buffer.length ∧
      0 < exampleParams.KERNEL_RADIUS ∧
      (0 : Int) ≤ exampleParams.WINDOW_WIDTH ∧ (0 : Int) ≤ exampleParams.WINDOW_HEIGHT ∧
      idleInput.mouse_pressing = false) ∧
    ((∃ k : Nat, 1 ≤ k ∧
      (particleAt (ComputeDensityPressureMTBF exampleParams singleState).particles 0).density
        = (k : ℚ) * (exampleParams.PARTICLE_MASS * POLY6 exampleParams
            * exampleParams.KERNEL_RADIUS ^ 6) ∧
      (exampleParams.KERNEL_RADIUS ≤ (CreateParticle (700 : ℚ) 400).position.x →
        (CreateParticle (700 : ℚ) 400).position.x
          < ((GRID_WIDTH exampleParams - 1 : Int) : ℚ) * CELL_SIZE exampleParams →
        exampleParams.KERNEL_RADIUS ≤ (CreateParticle (700 : ℚ) 400).position.y →
        (CreateParticle (700 : ℚ) 400).position.y
          < ((GRID_HEIGHT exampleParams - 1 : Int) : ℚ) * CELL_SIZE exampleParams → k = 1)) ∧
      (particleAt (ComputeDensityPressureMTBF exampleParams singleState).particles 0).pressure
        = exampleParams.GAS_CONSTANT *
          ((particleAt (ComputeDensityPressureMTBF exampleParams singleState).particles 0).density
            - exampleParams.REST_DENSITY) ∧
      (particleAt (ComputeForcesMTBF exampleParams (fun x => x) (fun _ => 1 / 2) idleInput
          (ComputeDensityPressureMTBF exampleParams singleState)).particles 0).force
        = (⟨0, exampleParams.GRAVITY⟩ : vec2 ℚ) * exampleParams.PARTICLE_MASS
            / (particleAt (ComputeDensityPressureMTBF exampleParams
                singleState).particles 0).density) :=
  ⟨⟨rfl, singleState_buffer, exampleParams_radius_pos, exampleParams_window.1,
      exampleParams_window.2, rfl⟩,
    single_particle_density_pressure_force exampleParams (fun x => x) (fun _ => 1 / 2)
      idleInput singleState (CreateParticle 700 400) rfl singleState_buffer
      exampleParams_radius_pos exampleParams_window.1 exampleParams_window.2 rfl⟩

theorem restParams_grid : GRID_WIDTH restParams = 88 ∧ GRID_HEIGHT restParams = 51 :=
  exampleParams_grid

/-- The density pass on pairState computes pairDensity for both particles. -/
theorem pairState_density (i : Nat) (hi : i < 2) :
    (particleAt (ComputeDensityPressureMTBF restParams pairState).particles i).density
      = restParams.REST_DENSITY := by
  have hc := pairState_cells restParams rfl restParams_grid.1 restParams_grid.2 i hi
  have hR : 0 < restParams.KERNEL_RADIUS := exampleParams_radius_pos
  rw [density_eq_sum_of_cell_interior restParams pairState i hi hR exampleParams_window.1
    exampleParams_window.2 pairState_buffer hc.1 hc.2.1 hc.2.2.1 hc.2.2.2]
  show Finset.sum ((Finset.range 2).filter _) _ = pairDensity
  rw [Finset.sum_filter, Finset.sum_range_succ, Finset.sum_range_one]
  have hi2 : i = 0 ∨ i = 1 := by omega
  rcases hi2 with rfl | rfl
  · norm_num [r2, dot, particleAt, pairState, CreateParticle, restParams, exampleParams,
      programParams, pairDensity, POLY6]
  · norm_num [r2, dot, particleAt, pairState, CreateParticle, restParams, exampleParams,
      programParams, pairDensity, POLY6]

theorem pairState_margins :
    (BOUNDARY_EPSILON restParams ≤ (CreateParticle (100 : ℚ) 100).position.x ∧
      (CreateParticle (100 : ℚ) 100).position.x
        ≤ (restParams.WINDOW_WIDTH : ℚ) - BOUNDARY_EPSILON restParams) ∧
    (BOUNDARY_EPSILON restParams ≤ (CreateParticle (100 : ℚ) 100).position.y ∧
      (CreateParticle (100 : ℚ) 100).position.y
        ≤ (restParams.WINDOW_HEIGHT : ℚ) - BOUNDARY_EPSILON restParams) ∧
    (BOUNDARY_EPSILON restParams ≤ (CreateParticle (108 : ℚ) 100).position.x ∧
      (CreateParticle (108 : ℚ) 100).position.x
        ≤ (restParams.WINDOW_WIDTH : ℚ) - BOUNDARY_EPSILON restParams) ∧
    (BOUNDARY_EPSILON restParams ≤ (CreateParticle (108 : ℚ) 100).position.y ∧
      (CreateParticle (108 : ℚ) 100).position.y
        ≤ (restParams.WINDOW_HEIGHT : ℚ) - BOUNDARY_EPSILON restParams) := by
  norm_num [BOUNDARY_EPSILON, CreateParticle, restParams, exampleParams, programParams]

theorem pairState_half_radius :
    r2 pairState.particles 0 1 = (restParams.KERNEL_RADIUS / 2) * (restParams.KERNEL_RADIUS / 2) := by
  norm_num [r2, dot, particleAt, pairState, CreateParticle, restParams, exampleParams,
    programParams]

/-- C9, witness: two particles 8 apart, the rest density set to their density. -/
theorem two_particles_at_rest_stay_at_rest_witness :
    (pairState.particles = [CreateParticle 100 100, CreateParticle 108 100] ∧
      2 ≤ pairState.neighbor_buffer.length ∧
      0 < restParams.KERNEL_RADIUS ∧ restParams.GRAVITY = 0 ∧
      idleInput.mouse_pressing = false ∧
      (CreateParticle (100 : ℚ) 100).velocity = ⟨0, 0⟩ ∧
      (CreateParticle (108 : ℚ) 100).velocity = ⟨0, 0⟩ ∧
      r2 pairState.particles 0 1
        = (restParams.KERNEL_RADIUS / 2) * (restParams.KERNEL_RADIUS / 2) ∧
      (particleAt (ComputeDensityPressureMTBF restParams pairState).particles 0).density
        = restParams.REST_DENSITY ∧
      (particleAt (ComputeDensityPressureMTBF restParams pairState).particles 1).density
        = restParams.REST_DENSITY) ∧
    ∀ i, i < 2 →
      (particleAt (ComputeForcesMTBF restParams (fun x => x) (fun _ => 1 / 2) idleInput
        (ComputeDensityPressureMTBF restParams pairState)).particles i).pressure = 0 ∧
      (particleAt (ComputeForcesMTBF restParams (fun x => x) (fun _ => 1 / 2) idleInput
        (ComputeDensityPressureMTBF restParams pairState)).particles i).force = ⟨0, 0⟩ ∧
      (particleAt (UpdateMTBF restParams (fun x => x) (fun _ => 1 / 2) idleInput
        pairState).particles i).pressure = 0 ∧
      (particleAt (UpdateMTBF restParams (fun x => x) (fun _ => 1 / 2) idleInput
        pairState).particles i).force = ⟨0, 0⟩ ∧
      (particleAt (UpdateMTBF restParams (fun x => x) (fun _ => 1 / 2) idleInput
        pairState).particles i).position = (particleAt pairState.particles i).position ∧
      (particleAt (UpdateMTBF restParams (fun x => x) (fun _ => 1 / 2) idleInput
        pairState).particles i).velocity = (particleAt pairState.particles i).velocity :=
  ⟨⟨rfl, pairState_buffer, exampleParams_radius_pos, rfl, rfl, rfl, rfl, pairState_half_radius,
      pairState_density 0 (by decide), pairState_density 1 (by decide)⟩,
    two_particles_at_rest_stay_at_rest restParams (fun x => x) (fun _ => 1 / 2) idleInput
      pairState (CreateParticle 100 100) (CreateParticle 108 100) rfl pairState_buffer
      exampleParams_radius_pos rfl rfl rfl rfl pairState_half_radius
      pairState_margins.1 pairState_margins.2.1 pairState_margins.2.2.1 pairState_margins.2.2.2
      (pairState_density 0 (by decide)) (pairState_density 1 (by decide))⟩

theorem fallingState_velocity_position :
    (0 : ℚ) = (particleAt fallingState.particles 0).velocity.x
      + exampleParams.INTIGRATION_TIMESTEP * (particleAt fallingState.particles 0).force.x
        / (particleAt fallingState.particles 0).density ∧
    (-10000007 / 1000 : ℚ) = (particleAt fallingState.particles 0).velocity.y
      + exampleParams.INTIGRATION_TIMESTEP * (particleAt fallingState.particles 0).force.y
        / (particleAt fallingState.particles 0).density ∧
    (700 : ℚ) = (particleAt fallingState.particles 0).position.x
      + exampleParams.INTIGRATION_TIMESTEP * 0 ∧
    (99999951 / 10000000 : ℚ) = (particleAt fallingState.particles 0).position.y
      + exampleParams.INTIGRATION_TIMESTEP * (-10000007 / 1000) := by
  norm_num [particleAt, fallingState, exampleParams, programParams]

theorem exampleParams_margins :
    2 * BOUNDARY_EPSILON exampleParams ≤ (exampleParams.WINDOW_WIDTH : ℚ) ∧
    2 * BOUNDARY_EPSILON exampleParams ≤ (exampleParams.WINDOW_HEIGHT : ℚ) := by
  norm_num [BOUNDARY_EPSILON, exampleParams, programParams]

/-- C8, witness: a particle that the step carries below the lower margin is put on the
margin with its vertical velocity damped and reversed. -/
theorem integrate_step_formula_witness :
    ((0 : Nat) < fallingState.particles.length ∧
      2 * BOUNDARY_EPSILON exampleParams ≤ (exampleParams.WINDOW_WIDTH : ℚ) ∧
      2 * BOUNDARY_EPSILON exampleParams ≤ (exampleParams.WINDOW_HEIGHT : ℚ) ∧
      (99999951 / 10000000 : ℚ) - BOUNDARY_EPSILON exampleParams < 0) ∧
    ((particleAt (IntegrateMTBF exampleParams fallingState).particles 0).position.y
        = BOUNDARY_EPSILON exampleParams ∧
      (particleAt (IntegrateMTBF exampleParams fallingState).particles 0).velocity.y
        = exampleParams.BOUND_DAMPING * (-10000007 / 1000)) :=
  ⟨⟨by decide, exampleParams_margins.1, exampleParams_margins.2,
      by norm_num [BOUNDARY_EPSILON, exampleParams, programParams]⟩,
    (integrate_step_formula exampleParams fallingState 0 (by decide) exampleParams_margins.1
      exampleParams_margins.2 0 (-10000007 / 1000) 700 (99999951 / 10000000)
      fallingState_velocity_position.1 fallingState_velocity_position.2.1
      fallingState_velocity_position.2.2.1 fallingState_velocity_position.2.2.2).2.2.2.1
      (by norm_num [BOUNDARY_EPSILON, exampleParams, programParams])⟩

end witnesses

/-! ## The ring of cells inside the post-integration box -/

section ring_in_box

variable {K : Type} [LinearOrderedField K] [FloorRing K]

/-- The grid dimensions main.cpp computes from its constants: 88 by 51 cells. -/
theorem programParams_grid (pi : K) :
    GRID_WIDTH (programParams pi) = 88 ∧ GRID_HEIGHT (programParams pi) = 51 := by
  have h1 : toInt ((1400 : K) / 16) = 87 := by
    unfold toInt
    rw [if_pos (by norm_num), Int.floor_eq_iff]
    norm_num
  have h2 : toInt ((800 : K) / 16) = 50 := by
    unfold toInt
    rw [if_pos (by norm_num), Int.floor_eq_iff]
    norm_num
  constructor
  · show toInt (((1400 : Int) : K) / 16) + 1 = 88
    rw [show (((1400 : Int) : K)) = 1400 by norm_num, h1]; rfl
  · show toInt (((800 : Int) : K) / 16) + 1 = 51
    rw [show (((800 : Int) : K)) = 800 by norm_num, h2]; rfl

theorem programParams_radius_pos (pi : K) : 0 < (programParams pi).KERNEL_RADIUS := by
  show (0 : K) < 16
  norm_num

/-- With the constants of main.cpp a position in the post-integration box has a cell that is
not on the border of the grid. -/
theorem programParams_cell_of_box (pi : K) (pos : vec2 K)
    (hx0 : BOUNDARY_EPSILON (programParams pi) ≤ pos.x)
    (hx1 : pos.x ≤ ((programParams pi).WINDOW_WIDTH : K) - BOUNDARY_EPSILON (programParams pi))
    (hy0 : BOUNDARY_EPSILON (programParams pi) ≤ pos.y)
    (hy1 : pos.y
      ≤ ((programParams pi).WINDOW_HEIGHT : K) - BOUNDARY_EPSILON (programParams pi)) :
    1 ≤ (GetCell (programParams pi) pos).x ∧
    (GetCell (programParams pi) pos).x ≤ GRID_WIDTH (programParams pi) - 2 ∧
    1 ≤ (GetCell (programParams pi) pos).y ∧
    (GetCell (programParams pi) pos).y ≤ GRID_HEIGHT (programParams pi) - 2 := by
  have hR := programParams_radius_pos pi
  have e16 : (programParams pi).KERNEL_RADIUS = 16 := rfl
  have eW : (((programParams pi).WINDOW_WIDTH : Int) : K) = 1400 := by
    show (((1400 : Int) : K)) = 1400
    norm_num
  have eH : (((programParams pi).WINDOW_HEIGHT : Int) : K) = 800 := by
    show (((800 : Int) : K)) = 800
    norm_num
  unfold BOUNDARY_EPSILON at hx0 hx1 hy0 hy1
  rw [eW, e16] at hx1
  rw [eH, e16] at hy1
  have cx := cell_interior_of_coordinate (programParams pi).KERNEL_RADIUS pos.x
    (GRID_WIDTH (programParams pi)) hR hx0 (by
      rw [(programParams_grid pi).1, e16]
      push_cast
      linarith)
  have cy := cell_interior_of_coordinate (programParams pi).KERNEL_RADIUS pos.y
    (GRID_HEIGHT (programParams pi)) hR hy0 (by
      rw [(programParams_grid pi).2, e16]
      push_cast
      linarith)
  exact ⟨cx.1, cx.2, cy.1, cy.2⟩

/-- C11. With the constants of main.cpp (KERNEL_RADIUS = CELL_SIZE = 16, window 1400 x 800,
so GRID_WIDTH = 88 and GRID_HEIGHT = 51), for a particle i whose position lies in the box
[BOUNDARY_EPSILON, WINDOW_WIDTH - BOUNDARY_EPSILON] x
[BOUNDARY_EPSILON, WINDOW_HEIGHT - BOUNDARY_EPSILON]: GetNearNeighborsMTBF scans the offsets
-1, 0, 1 on each axis; for each of the 9 offset pairs the clamp leaves the cell coordinates
as they are and they lie inside the grid; two different offset pairs give different cell
indices; and after BuildGrid no particle index occurs twice in the neighbor list of i. -/
theorem ring_in_box_is_unclamped_and_distinct (pi : K) (st : State K) (i : Nat)
    (hi : i < st.particles.length)
    (hbuf : st.particles.length ≤ st.neighbor_buffer.length)
    (hx0 : BOUNDARY_EPSILON (programParams pi) ≤ (particleAt st.particles i).position.x)
    (hx1 : (particleAt st.particles i).position.x
      ≤ ((programParams pi).WINDOW_WIDTH : K) - BOUNDARY_EPSILON (programParams pi))
    (hy0 : BOUNDARY_EPSILON (programParams pi) ≤ (particleAt st.particles i).position.y)
    (hy1 : (particleAt st.particles i).position.y
      ≤ ((programParams pi).WINDOW_HEIGHT : K) - BOUNDARY_EPSILON (programParams pi)) :
    (GRID_WIDTH (programParams pi) = 88 ∧ GRID_HEIGHT (programParams pi) = 51) ∧
    offsets (toInt ((Int.ceil ((programParams pi).KERNEL_RADIUS / CELL_SIZE (programParams pi))
      : Int) : K)) = [-1, 0, 1] ∧
    (∀ ox ∈ ([-1, 0, 1] : List Int), ∀ oy ∈ ([-1, 0, 1] : List Int),
      clamp ((GetCell (programParams pi) (particleAt st.particles i).position).x + ox) 0
          (GRID_WIDTH (programParams pi) - 1)
        = (GetCell (programParams pi) (particleAt st.particles i).position).x + ox ∧
      clamp ((GetCell (programParams pi) (particleAt st.particles i).position).y + oy) 0
          (GRID_HEIGHT (programParams pi) - 1)
        = (GetCell (programParams pi) (particleAt st.particles i).position).y + oy ∧
      0 ≤ (GetCell (programParams pi) (particleAt st.particles i).position).x + ox ∧
      (GetCell (programParams pi) (particleAt st.particles i).position).x + ox
        < GRID_WIDTH (programParams pi) ∧
      0 ≤ (GetCell (programParams pi) (particleAt st.particles i).position).y + oy ∧
      (GetCell (programParams pi) (particleAt st.particles i).position).y + oy
        < GRID_HEIGHT (programParams pi)) ∧
    (∀ ox ∈ ([-1, 0, 1] : List Int), ∀ oy ∈ ([-1, 0, 1] : List Int),
      ∀ ox1 ∈ ([-1, 0, 1] : List Int), ∀ oy1 ∈ ([-1, 0, 1] : List Int),
      GetCellIndex (programParams pi)
          (clamp ((GetCell (programParams pi) (particleAt st.particles i).position).x + ox) 0
            (GRID_WIDTH (programParams pi) - 1))
          (clamp ((GetCell (programParams pi) (particleAt st.particles i).position).y + oy) 0
            (GRID_HEIGHT (programParams pi) - 1))
        = GetCellIndex (programParams pi)
          (clamp ((GetCell (programParams pi) (particleAt st.particles i).position).x + ox1) 0
            (GRID_WIDTH (programParams pi) - 1))
          (clamp ((GetCell (programParams pi) (particleAt st.particles i).position).y + oy1) 0
            (GRID_HEIGHT (programParams pi) - 1)) →
      ox = ox1 ∧ oy = oy1) ∧
    (GetNearNeighborsMTBF (programParams pi) (BuildGrid (programParams pi) st)
        (particleAt (BuildGrid (programParams pi) st).particles i) i).2.Nodup ∧
    ∀ j, (GetNearNeighborsMTBF (programParams pi) (BuildGrid (programParams pi) st)
        (particleAt (BuildGrid (programParams pi) st).particles i) i).2.count j ≤ 1 := by
  have hR := programParams_radius_pos pi
  have hg := programParams_grid pi
  have hc := programParams_cell_of_box pi (particleAt st.particles i).position hx0 hx1 hy0 hy1
  have hunclamped : ∀ ox ∈ ([-1, 0, 1] : List Int), ∀ oy ∈ ([-1, 0, 1] : List Int),
      clamp ((GetCell (programParams pi) (particleAt st.particles i).position).x + ox) 0
          (GRID_WIDTH (programParams pi) - 1)
        = (GetCell (programParams pi) (particleAt st.particles i).position).x + ox ∧
      clamp ((GetCell (programParams pi) (particleAt st.particles i).position).y + oy) 0
          (GRID_HEIGHT (programParams pi) - 1)
        = (GetCell (programParams pi) (particleAt st.particles i).position).y + oy ∧
      0 ≤ (GetCell (programParams pi) (particleAt st.particles i).position).x + ox ∧
      (GetCell (programParams pi) (particleAt st.particles i).position).x + ox
        < GRID_WIDTH (programParams pi) ∧
      0 ≤ (GetCell (programParams pi) (particleAt st.particles i).position).y + oy ∧
      (GetCell (programParams pi) (particleAt st.particles i).position).y + oy
        < GRID_HEIGHT (programParams pi) := by
    intro ox hox oy hoy
    have bx := mem_offsets_bounds hox
    have b_y := mem_offsets_bounds hoy
    exact ⟨clamp_eq_self _ _ (by omega) (by omega), clamp_eq_self _ _ (by omega) (by omega),
      by omega, by omega, by omega, by omega⟩
  have hnodup : (GetNearNeighborsMTBF (programParams pi) (BuildGrid (programParams pi) st)
      (particleAt (BuildGrid (programParams pi) st).particles i) i).2.Nodup := by
    simp only [GetNearNeighborsMTBF, BuildGrid_particles, BuildGrid_neighbor_buffer]
    rw [getD_set_self _ _ _ _ (by omega)]
    have hW : (0 : Int) ≤ (programParams pi).WINDOW_WIDTH := by
      show (0 : Int) ≤ 1400
      decide
    have hH : (0 : Int) ≤ (programParams pi).WINDOW_HEIGHT := by
      show (0 : Int) ≤ 800
      decide
    exact scan_nodup_interior (programParams pi) st _ hR hW hH hc.1 hc.2.1 hc.2.2.1 hc.2.2.2
  refine ⟨hg, ?_, hunclamped, ?_, hnodup, fun j => List.nodup_iff_count_le_one.mp hnodup j⟩
  · rw [scan_range_eq_one (programParams pi) (ne_of_gt hR)]
    exact offsets_one
  · intro ox hox oy hoy ox1 hox1 oy1 hoy1 h
    have u := hunclamped ox hox oy hoy
    have u1 := hunclamped ox1 hox1 oy1 hoy1
    rw [u.1, u.2.1, u1.1, u1.2.1] at h
    unfold GetCellIndex at h
    have := row_major_inj (GRID_WIDTH (programParams pi)) _ _ _ _ u.2.2.1 u.2.2.2.1
      u1.2.2.1 u1.2.2.2.1 h
    omega

end ring_in_box

/-! ## The ring claim at a concrete input -/

section ring_witness

theorem pairState_in_box :
    BOUNDARY_EPSILON (programParams (355 / 113 : ℚ))
      ≤ (particleAt pairState.particles 0).position.x ∧
    (particleAt pairState.particles 0).position.x
      ≤ ((programParams (355 / 113 : ℚ)).WINDOW_WIDTH : ℚ)
        - BOUNDARY_EPSILON (programParams (355 / 113 : ℚ)) ∧
    BOUNDARY_EPSILON (programParams (355 / 113 : ℚ))
      ≤ (particleAt pairState.particles 0).position.y ∧
    (particleAt pairState.particles 0).position.y
      ≤ ((programParams (355 / 113 : ℚ)).WINDOW_HEIGHT : ℚ)
        - BOUNDARY_EPSILON (programParams (355 / 113 : ℚ)) := by
  norm_num [BOUNDARY_EPSILON, programParams, particleAt, pairState, CreateParticle]

/-- C11, witness: the first of two particles in the middle of the window; its neighbor list
after BuildGrid has no repeated index. -/
theorem ring_in_box_is_unclamped_and_distinct_witness :
    ((0 : Nat) < pairState.particles.length ∧
      pairState.particles.length ≤ pairState.neighbor_buffer.length ∧
      BOUNDARY_EPSILON (programParams (355 / 113 : ℚ))
        ≤ (particleAt pairState.particles 0).position.x ∧
      (particleAt pairState.particles 0).position.x
        ≤ ((programParams (355 / 113 : ℚ)).WINDOW_WIDTH : ℚ)
          - BOUNDARY_EPSILON (programParams (355 / 113 : ℚ)) ∧
      BOUNDARY_EPSILON (programParams (355 / 113 : ℚ))
        ≤ (particleAt pairState.particles 0).position.y ∧
      (particleAt pairState.particles 0).position.y
        ≤ ((programParams (355 / 113 : ℚ)).WINDOW_HEIGHT : ℚ)
          - BOUNDARY_EPSILON (programParams (355 / 113 : ℚ))) ∧
    (GetNearNeighborsMTBF (programParams (355 / 113 : ℚ))
        (BuildGrid (programParams (355 / 113 : ℚ)) pairState)
        (particleAt (BuildGrid (programParams (355 / 113 : ℚ)) pairState).particles 0)
        0).2.Nodup :=
  ⟨⟨by decide, pairState_buffer, pairState_in_box⟩,
    (ring_in_box_is_unclamped_and_distinct (355 / 113 : ℚ) pairState 0 (by decide)
      pairState_buffer pairState_in_box.1 pairState_in_box.2.1 pairState_in_box.2.2.1
      pairState_in_box.2.2.2).2.2.2.2.1⟩

end ring_witness

/-! ## The kernel test in float arithmetic -/

section rounded

variable {K : Type} [LinearOrderedField K] [FloorRing K]

/-- Without rounding the rounded scan is the scan of the exact embedding. -/
theorem Rounded_scanCells_id (c : Params K) (ps : List (Particle K)) (grid : List (List Nat))
    (pos : vec2 K) : Rounded.scanCells id c ps grid pos = scanCells c ps grid pos := rfl

/-- Without rounding the rounded BuildGrid is BuildGrid. -/
theorem Rounded_BuildGrid_id (c : Params K) (st : State K) :
    Rounded.BuildGrid id c st = BuildGrid c st := rfl

/-- Without rounding the rounded neighbor search is GetNearNeighborsMTBF. -/
theorem Rounded_GetNearNeighborsMTBF_id (c : Params K) (st : State K) (p : Particle K)
    (index : Nat) :
    Rounded.GetNearNeighborsMTBF id c st p index = GetNearNeighborsMTBF c st p index := rfl

end rounded

section binary32_values

end binary32_values

section float_counterexample

end float_counterexample
